import Mathlib

/-!
# Verification of the SMBIOS table assembler (`lib/smbios.c`)

A shallow embedding of the table-assembly engine of `lib/smbios.c`:
the per-structure writers, the string-table packer, the sysinfo/devicetree
fallback resolver, the handle-linking logic and the entry-point descriptor.

Modelling conventions:
* Bytes are `Nat` (values kept below 256 by construction where it matters).
* A C string (`char *`) is `Option (List Nat)`: `none` is the NULL pointer,
  `some bs` a NUL-terminated string holding the bytes `bs` (no interior 0).
* A structure's string pool is modelled by the bytes of the region between
  the pool start (`ctx->eos`) and the provisional end (`ctx->next_ptr`),
  exclusive: each stored string occurs together with its terminating 0 byte.
  The byte at `next_ptr` itself is the maintained extra 0 terminator and the
  bytes of an untouched pool are 0 because each writer zero-fills its record.
* External collaborators (the sysinfo probe device, the devicetree, the
  environment) are oracles: functions from ids or names to optional values.
* The compile-time configuration of the build under verification:
  `CONFIG_OF_CONTROL` and `SYSINFO` are enabled, `CONFIG_CPU`,
  `CONFIG_ROM_SIZE`, `CONFIG_GENERATE_ACPI_TABLE` and `CONFIG_EFI_LOADER`
  are disabled, so the corresponding `#if` regions are compiled out.
-/

/-- Compile-time flag: devicetree control is enabled in the build modelled
here, so every `IS_ENABLED(CONFIG_OF_CONTROL)` test is true. -/
def CONFIG_OF_CONTROL : Bool := true

/-- Modelled from the spec: `SMBIOS_STR_MAX` (declared in `include/smbios.h`,
which is not under `src/`) bounds every short string handled by the core;
only its positivity and its role as the `strnlen` cap are relied on. -/
def SMBIOS_STR_MAX : Nat := 64

/-- `SYSINFO_CACHE_LVL_MAX` from `include/sysinfo.h`: the maximum number of
cache levels the cache-related sysinfo ids reserve space for. -/
def SYSINFO_CACHE_LVL_MAX : Nat := 3

/-- The bytes of a string literal, for writing concrete byte lists. -/
def bytes (s : String) : List Nat :=
  s.data.map Char.toNat

/-- Truncate an `int` to an unsigned 8-bit store, as a C assignment to a
`u8` structure field does. -/
def toU8 (v : Int) : Nat :=
  (v % 256).toNat

/-- Truncate an `int` to an unsigned 16-bit store. -/
def toU16 (v : Int) : Nat :=
  (v % 65536).toNat

/-- Truncate an `int` to an unsigned 32-bit store. -/
def toU32 (v : Int) : Nat :=
  (v % 4294967296).toNat

/-- Truncate a `Nat` to an unsigned 8-bit store. -/
def toU8n (v : Nat) : Nat :=
  v % 256

/-- Truncate a `Nat` to an unsigned 16-bit store. -/
def toU16n (v : Nat) : Nat :=
  v % 65536

/-- The little-endian bytes of a 32-bit field. -/
def u32le (v : Nat) : List Nat :=
  [v % 256, v / 256 % 256, v / 65536 % 256, v / 16777216 % 256]

/-- The little-endian bytes of a 64-bit field. -/
def u64le (v : Nat) : List Nat :=
  u32le (v % 4294967296) ++ u32le (v / 4294967296 % 4294967296)

/-- Read the little-endian `u16` at byte offset `off` of a data area
(out-of-range bytes read as 0, matching the zero-filled scratch area). -/
def readU16le (b : List Nat) (off : Nat) : Nat :=
  b.getD off 0 + 256 * b.getD (off + 1) 0

/-- Store the little-endian `u16` `v` at byte offset `off` of a data area,
as `*((u16 *)hdl + level) = handle` does on a little-endian target. -/
def writeU16le (b : List Nat) (off : Nat) (v : Nat) : List Nat :=
  b.take off ++ [toU16n v % 256, toU16n v / 256] ++ b.drop (off + 2)

/-- `strnlen(p, maxlen)`: the number of bytes before the first 0 byte,
capped at `maxlen`. -/
def strnlen (buf : List Nat) (maxlen : Nat) : Nat :=
  ((buf.take maxlen).takeWhile (fun b => b != 0)).length

/-! ## The string table packer (`smbios_add_string`)

`struct smbios_ctx`'s string-area fields are modelled by `SmbiosStrCtx`:
`pool` is the byte region `[eos, next_ptr)` and `lastStr` the string
`last_str` points at (`none` for NULL).  `smbios_set_eos` resets them. -/

/-- The string-area state of `struct smbios_ctx`: the bytes of the region
between `eos` and `next_ptr`, and the last written string. -/
structure SmbiosStrCtx where
  pool : List Nat
  lastStr : Option (List Nat)
deriving Repr, DecidableEq

/-- `smbios_set_eos`: a freshly reset string area (`next_ptr = eos`,
`last_str = NULL`). -/
def freshStrCtx : SmbiosStrCtx :=
  ⟨[], none⟩

/-- Result of one scan-and-add pass over the pool bytes: the new pool
region, the 1-based string number, and the string `last_str` points at. -/
structure ScanRes where
  pool : List Nat
  num : Nat
  last : List Nat
deriving Repr, DecidableEq

/-- The scanning loop of `smbios_add_string`, on the byte region from the
current scan position to `next_ptr`.  A 0 byte at the scan position is the
pool end (`if (!*p)`): the string and its terminator are written there and
the region ends just past them (the extra 0 written after is the byte at the
new `next_ptr`, outside the region).  Otherwise the NUL-terminated run at
the position is compared with `str` (`strcmp`) and either matched or
skipped (`p += strlen(p) + 1; i++`).  The `fuel` argument only bounds the
recursion (each skip consumes at least two pool bytes, so fuel equal to
the pool length, as `scanAdd` supplies, is never exhausted); it keeps the
definition structurally recursive and hence kernel-evaluable. -/
def scanAddF : Nat → List Nat → List Nat → ScanRes
  | _, [], str => ⟨str ++ [0], 1, str⟩
  | fuel, b :: tl, str =>
    if b = 0 then
      ⟨str ++ [0], 1, str⟩
    else
      let r := (b :: tl).takeWhile (fun x => x != 0)
      if r = str then
        ⟨b :: tl, 1, r⟩
      else
        match fuel with
        | 0 => ⟨str ++ [0], 1, str⟩
        | fuel1 + 1 =>
          let rest := scanAddF fuel1 ((b :: tl).drop (r.length + 1)) str
          ⟨r ++ 0 :: rest.pool, rest.num + 1, rest.last⟩

/-- The scan-and-add pass of `smbios_add_string`, with enough fuel for its
pool. -/
def scanAdd (pool : List Nat) (str : List Nat) : ScanRes :=
  scanAddF pool.length pool str

/-- Result of `smbios_add_string`: the updated context and the returned
string number. -/
structure AddRes where
  ctx : SmbiosStrCtx
  num : Nat
deriving Repr, DecidableEq

/-- `smbios_add_string(ctx, str)`: 0 for a NULL string, otherwise the scan
loop above. -/
def smbios_add_string (c : SmbiosStrCtx) (str : Option (List Nat)) : AddRes :=
  match str with
  | none => ⟨c, 0⟩
  | some s =>
    let r := scanAdd c.pool s
    ⟨⟨r.pool, some r.last⟩, r.num⟩

/-- `smbios_string_table_len(ctx)`: two 0 bytes when no string was written
(`next_ptr == eos`), otherwise the region plus the final 0
(`(next_ptr + 1) - eos`). -/
def smbios_string_table_len (c : SmbiosStrCtx) : Nat :=
  if c.pool = [] then 2 else c.pool.length + 1

/-- The serialized bytes of the string area: the pool region followed by
the maintained 0 bytes up to the computed length (the byte at `next_ptr` is
0 by construction, and the byte after it is 0 for an untouched pool because
the writer zero-filled the record). -/
def string_area_bytes (c : SmbiosStrCtx) : List Nat :=
  c.pool ++ List.replicate (smbios_string_table_len c - c.pool.length) 0

/-- Well-formedness of a pool region: empty, or ending with a 0 byte (the
last stored string's terminator).  Every reachable pool satisfies it. -/
def PoolWf (p : List Nat) : Prop :=
  p = [] ∨ p.getLast? = some 0

instance (p : List Nat) : Decidable (PoolWf p) := by
  unfold PoolWf
  infer_instance

/-! ## The version patch API (`smbios_update_version`)

`gd->smbios_version` is a pointer into the already written type-0 string
pool; the model keeps the byte suffix of the output buffer from that
pointer on (`none` when the pointer was never recorded).  `memcpy` touches
only the first `len` bytes of that suffix. -/

/-- The one piece of global state the patch API uses: the bytes from
`gd->smbios_version` on, or `none` when the type-0 writer has not recorded
a version-string location yet. -/
structure GdSmbios where
  smbios_version : Option (List Nat)

/-- `-ENOENT`: the not-yet-written error. -/
def ENOENT_NEG : Int := -2

/-- `-ENOSPC`: the length-exceeded error. -/
def ENOSPC_NEG : Int := -28

/-- `smbios_update_version(version)`: fails with `-ENOENT` before the
pointer exists, fails with `-ENOSPC` when the new string is longer than the
stored one (both measured by `strnlen` capped at `SMBIOS_STR_MAX`), else
copies exactly `len` bytes over the stored string, without the terminator.
The result carries the updated buffer (the C mutates in place and
returns 0). -/
def smbios_update_version (gd : GdSmbios) (version : List Nat) :
    Except Int (List Nat) :=
  match gd.smbios_version with
  | none => .error ENOENT_NEG
  | some ptr =>
    let old_len := strnlen ptr SMBIOS_STR_MAX
    let len := strnlen version SMBIOS_STR_MAX
    if len > old_len then .error ENOSPC_NEG
    else .ok (version.take len ++ ptr.drop len)

/-! ## External collaborators: sysinfo device and devicetree -/

/-- The sysinfo probe device, as an oracle.  `detectOk` records whether the
one-time `sysinfo_detect` call succeeded; every accessor of the uclass
fails before a successful detection.  `ints`, `strs` are the driver's
`get_int`/`get_str` tables; `procIdData` is the `get_data` area for
`SYSINFO_ID_SMBIOS_PROCESSOR_ID`; `cacheBlob0` the initial contents of the
`get_data` area for `SYSINFO_ID_SMBIOS_CACHE_HANDLE` (`none` when the
driver does not provide one). -/
structure SysinfoDev where
  detectOk : Bool
  ints : Nat → Option Int
  strs : Nat → Option (List Nat)
  procIdData : Option (List Nat)
  cacheBlob0 : Option (List Nat)

/-- Modelled from the spec: `sysinfo_get_int` (uclass wrapper, not under
`src/`) — fails when no device is there or detection has not succeeded,
else consults the driver. -/
def sysinfo_get_int (dev : Option SysinfoDev) (id : Nat) : Option Int :=
  match dev with
  | none => none
  | some d => if d.detectOk then d.ints id else none

/-- Modelled from the spec: `sysinfo_get_str` — same gating as
`sysinfo_get_int`; a successful read yields the driver's string. -/
def sysinfo_get_str (dev : Option SysinfoDev) (id : Nat) : Option (List Nat) :=
  match dev with
  | none => none
  | some d => if d.detectOk then d.strs id else none

/-- Modelled from the spec: `sysinfo_get_data` for the cache-handle id.
The data area is owned by the driver and mutable, so its current contents
are passed in explicitly and threaded through the build. -/
def sysinfo_get_data_cache (dev : Option SysinfoDev)
    (blob : Option (List Nat)) : Option (List Nat) :=
  match dev with
  | none => none
  | some d => if d.detectOk then blob else none

/-- Modelled from the spec: `sysinfo_get_data` for the processor-id blob. -/
def sysinfo_get_data_procid (dev : Option SysinfoDev) : Option (List Nat) :=
  match dev with
  | none => none
  | some d => if d.detectOk then d.procIdData else none

/-- A devicetree node: `u32` and string properties, and named subnodes
(`ofnode_read_u32`, `ofnode_read_string`, `ofnode_find_subnode`). -/
inductive DtNode where
  | mk (u32s : String → Option Int) (strs : String → Option (List Nat))
      (subs : String → Option DtNode)

/-- The `u32` properties of a node. -/
def DtNode.u32s : DtNode → String → Option Int
  | .mk u _ _ => u

/-- The string properties of a node. -/
def DtNode.strs : DtNode → String → Option (List Nat)
  | .mk _ s _ => s

/-- The subnodes of a node. -/
def DtNode.subs : DtNode → String → Option DtNode
  | .mk _ _ su => su

/-- `ofnode_find_subnode`, tolerating an invalid (`none`) parent. -/
def ofnode_find_subnode (parent : Option DtNode) (name : String) :
    Option DtNode :=
  match parent with
  | none => none
  | some p => p.subs name

/-- `ofnode_read_u32` on a possibly invalid node. -/
def ofnode_read_u32 (node : Option DtNode) (prop : String) : Option Int :=
  match node with
  | none => none
  | some n => n.u32s prop

/-! ## The integer fact resolver (`smbios_get_val_si`) -/

/-- `smbios_get_val_si(ctx, prop, sysinfo_id)`: 0 when the id is null or no
sysinfo device is attached; else the sysinfo value if the driver has one;
else, with devicetree control, a property name and a valid node, the `u32`
read from the node; else 0. -/
def smbios_get_val_si (dev : Option SysinfoDev) (node : Option DtNode)
    (prop : Option String) (sysinfo_id : Nat) : Int :=
  if sysinfo_id = 0 then 0
  else match dev with
  | none => 0
  | some d =>
    match sysinfo_get_int (some d) sysinfo_id with
    | some v => v
    | none =>
      if CONFIG_OF_CONTROL = false then 0
      else match prop with
      | none => 0
      | some p =>
        match node with
        | none => 0
        | some n =>
          match n.u32s p with
          | some v => v
          | none => 0

/-! ## The sysinfo fact identifiers (`enum sysinfo_id`)

Values follow the declaration order of `include/sysinfo.h`; the cache ids
occupy a contiguous block of `SYSINFO_CACHE_LVL_MAX` slots per attribute. -/

/-- `SYSINFO_ID_NONE`: the null fact id. -/
def SYSINFO_ID_NONE : Nat := 0

/-- BIOS information fact ids (type 0). -/
def SYSINFO_ID_SMBIOS_BIOS_VENDOR : Nat := 1

/-- BIOS version fact id. -/
def SYSINFO_ID_SMBIOS_BIOS_VER : Nat := 2

/-- BIOS release-date fact id. -/
def SYSINFO_ID_SMBIOS_BIOS_REL_DATE : Nat := 3

/-- System information fact ids (type 1). -/
def SYSINFO_ID_SMBIOS_SYSTEM_MANUFACTURER : Nat := 4

/-- System product fact id. -/
def SYSINFO_ID_SMBIOS_SYSTEM_PRODUCT : Nat := 5

/-- System version fact id. -/
def SYSINFO_ID_SMBIOS_SYSTEM_VERSION : Nat := 6

/-- System serial fact id. -/
def SYSINFO_ID_SMBIOS_SYSTEM_SERIAL : Nat := 7

/-- System wakeup-type fact id. -/
def SYSINFO_ID_SMBIOS_SYSTEM_WAKEUP : Nat := 8

/-- System SKU fact id. -/
def SYSINFO_ID_SMBIOS_SYSTEM_SKU : Nat := 9

/-- System family fact id. -/
def SYSINFO_ID_SMBIOS_SYSTEM_FAMILY : Nat := 10

/-- Baseboard information fact ids (type 2). -/
def SYSINFO_ID_SMBIOS_BASEBOARD_MANUFACTURER : Nat := 11

/-- Baseboard product fact id. -/
def SYSINFO_ID_SMBIOS_BASEBOARD_PRODUCT : Nat := 12

/-- Baseboard version fact id. -/
def SYSINFO_ID_SMBIOS_BASEBOARD_VERSION : Nat := 13

/-- Baseboard serial fact id. -/
def SYSINFO_ID_SMBIOS_BASEBOARD_SERIAL : Nat := 14

/-- Baseboard asset-tag fact id. -/
def SYSINFO_ID_SMBIOS_BASEBOARD_ASSET_TAG : Nat := 15

/-- Baseboard feature-flags fact id. -/
def SYSINFO_ID_SMBIOS_BASEBOARD_FEATURE : Nat := 16

/-- Baseboard chassis-location fact id. -/
def SYSINFO_ID_SMBIOS_BASEBOARD_CHASSIS_LOCAT : Nat := 17

/-- Baseboard board-type fact id. -/
def SYSINFO_ID_SMBIOS_BASEBOARD_TYPE : Nat := 18

/-- Enclosure information fact ids (type 3). -/
def SYSINFO_ID_SMBIOS_ENCLOSURE_MANUFACTURER : Nat := 21

/-- Enclosure version fact id. -/
def SYSINFO_ID_SMBIOS_ENCLOSURE_VERSION : Nat := 22

/-- Enclosure serial fact id. -/
def SYSINFO_ID_SMBIOS_ENCLOSURE_SERIAL : Nat := 23

/-- Enclosure asset-tag fact id. -/
def SYSINFO_ID_SMBIOS_ENCLOSURE_ASSET_TAG : Nat := 24

/-- Enclosure chassis-type fact id. -/
def SYSINFO_ID_SMBIOS_ENCLOSURE_TYPE : Nat := 25

/-- Enclosure bootup-state fact id. -/
def SYSINFO_ID_SMBIOS_ENCLOSURE_BOOTUP : Nat := 26

/-- Enclosure power-supply-state fact id. -/
def SYSINFO_ID_SMBIOS_ENCLOSURE_POW : Nat := 27

/-- Enclosure thermal-state fact id. -/
def SYSINFO_ID_SMBIOS_ENCLOSURE_THERMAL : Nat := 28

/-- Enclosure security-status fact id. -/
def SYSINFO_ID_SMBIOS_ENCLOSURE_SECURITY : Nat := 29

/-- Enclosure OEM-defined fact id. -/
def SYSINFO_ID_SMBIOS_ENCLOSURE_OEM : Nat := 30

/-- Enclosure height fact id. -/
def SYSINFO_ID_SMBIOS_ENCLOSURE_HEIGHT : Nat := 31

/-- Enclosure power-cord-count fact id. -/
def SYSINFO_ID_SMBIOS_ENCLOSURE_POWCORE_NUM : Nat := 32

/-- Enclosure SKU fact id. -/
def SYSINFO_ID_SMBIOS_ENCLOSURE_SKU : Nat := 36

/-- Processor information fact ids (type 4). -/
def SYSINFO_ID_SMBIOS_PROCESSOR_SOCKET : Nat := 37

/-- Processor type fact id. -/
def SYSINFO_ID_SMBIOS_PROCESSOR_TYPE : Nat := 38

/-- Processor manufacturer fact id. -/
def SYSINFO_ID_SMBIOS_PROCESSOR_MANUFACT : Nat := 39

/-- Processor id-blob fact id. -/
def SYSINFO_ID_SMBIOS_PROCESSOR_ID : Nat := 40

/-- Processor version fact id. -/
def SYSINFO_ID_SMBIOS_PROCESSOR_VERSION : Nat := 41

/-- Processor voltage fact id. -/
def SYSINFO_ID_SMBIOS_PROCESSOR_VOLTAGE : Nat := 42

/-- Processor external-clock fact id. -/
def SYSINFO_ID_SMBIOS_PROCESSOR_EXT_CLOCK : Nat := 43

/-- Processor max-speed fact id. -/
def SYSINFO_ID_SMBIOS_PROCESSOR_MAX_SPEED : Nat := 44

/-- Processor current-speed fact id. -/
def SYSINFO_ID_SMBIOS_PROCESSOR_CUR_SPEED : Nat := 45

/-- Processor status fact id. -/
def SYSINFO_ID_SMBIOS_PROCESSOR_STATUS : Nat := 46

/-- Processor upgrade fact id. -/
def SYSINFO_ID_SMBIOS_PROCESSOR_UPGRADE : Nat := 47

/-- Processor serial-number fact id. -/
def SYSINFO_ID_SMBIOS_PROCESSOR_SN : Nat := 48

/-- Processor asset-tag fact id. -/
def SYSINFO_ID_SMBIOS_PROCESSOR_ASSET_TAG : Nat := 49

/-- Processor part-number fact id. -/
def SYSINFO_ID_SMBIOS_PROCESSOR_PN : Nat := 50

/-- Processor core-count fact id. -/
def SYSINFO_ID_SMBIOS_PROCESSOR_CORE_CNT : Nat := 51

/-- Processor enabled-core-count fact id. -/
def SYSINFO_ID_SMBIOS_PROCESSOR_CORE_EN : Nat := 52

/-- Processor thread-count fact id. -/
def SYSINFO_ID_SMBIOS_PROCESSOR_THREAD_CNT : Nat := 53

/-- Processor characteristics fact id. -/
def SYSINFO_ID_SMBIOS_PROCESSOR_CHARA : Nat := 54

/-- Processor family fact id. -/
def SYSINFO_ID_SMBIOS_PROCESSOR_FAMILY : Nat := 55

/-- Processor extended-family fact id. -/
def SYSINFO_ID_SMBIOS_PROCESSOR_FAMILY2 : Nat := 56

/-- Processor core-count2 fact id. -/
def SYSINFO_ID_SMBIOS_PROCESSOR_CORE_CNT2 : Nat := 57

/-- Processor enabled-core-count2 fact id. -/
def SYSINFO_ID_SMBIOS_PROCESSOR_CORE_EN2 : Nat := 58

/-- Processor thread-count2 fact id. -/
def SYSINFO_ID_SMBIOS_PROCESSOR_THREAD_CNT2 : Nat := 59

/-- Processor enabled-thread-count fact id. -/
def SYSINFO_ID_SMBIOS_PROCESSOR_THREAD_EN : Nat := 60

/-- Cache level-count fact id (type 7). -/
def SYSINFO_ID_SMBIOS_CACHE_LEVEL : Nat := 61

/-- Cache handle-blob fact id: the mutable data area recording one 16-bit
handle slot per supported cache level. -/
def SYSINFO_ID_SMBIOS_CACHE_HANDLE : Nat := 62

/-- First id of the contiguous per-level cache attribute block. -/
def SYSINFO_ID_SMBIOS_CACHE_INFO_START : Nat := 63

/-- Cache socket-design base id. -/
def SYSINFO_ID_SMBIOS_CACHE_SOCKET : Nat := SYSINFO_ID_SMBIOS_CACHE_INFO_START

/-- Cache configuration base id. -/
def SYSINFO_ID_SMBIOS_CACHE_CONFIG : Nat :=
  SYSINFO_ID_SMBIOS_CACHE_SOCKET + SYSINFO_CACHE_LVL_MAX

/-- Cache max-size base id. -/
def SYSINFO_ID_SMBIOS_CACHE_MAX_SIZE : Nat :=
  SYSINFO_ID_SMBIOS_CACHE_CONFIG + SYSINFO_CACHE_LVL_MAX

/-- Cache installed-size base id. -/
def SYSINFO_ID_SMBIOS_CACHE_INST_SIZE : Nat :=
  SYSINFO_ID_SMBIOS_CACHE_MAX_SIZE + SYSINFO_CACHE_LVL_MAX

/-- Cache supported-SRAM-type base id. -/
def SYSINFO_ID_SMBIOS_CACHE_SUPSRAM_TYPE : Nat :=
  SYSINFO_ID_SMBIOS_CACHE_INST_SIZE + SYSINFO_CACHE_LVL_MAX

/-- Cache current-SRAM-type base id. -/
def SYSINFO_ID_SMBIOS_CACHE_CURSRAM_TYPE : Nat :=
  SYSINFO_ID_SMBIOS_CACHE_SUPSRAM_TYPE + SYSINFO_CACHE_LVL_MAX

/-- Cache speed base id. -/
def SYSINFO_ID_SMBIOS_CACHE_SPEED : Nat :=
  SYSINFO_ID_SMBIOS_CACHE_CURSRAM_TYPE + SYSINFO_CACHE_LVL_MAX

/-- Cache error-correction-type base id. -/
def SYSINFO_ID_SMBIOS_CACHE_ERRCOR_TYPE : Nat :=
  SYSINFO_ID_SMBIOS_CACHE_SPEED + SYSINFO_CACHE_LVL_MAX

/-- Cache system-cache-type base id. -/
def SYSINFO_ID_SMBIOS_CACHE_SCACHE_TYPE : Nat :=
  SYSINFO_ID_SMBIOS_CACHE_ERRCOR_TYPE + SYSINFO_CACHE_LVL_MAX

/-- Cache associativity base id. -/
def SYSINFO_ID_SMBIOS_CACHE_ASSOC : Nat :=
  SYSINFO_ID_SMBIOS_CACHE_SCACHE_TYPE + SYSINFO_CACHE_LVL_MAX

/-- Cache max-size2 base id. -/
def SYSINFO_ID_SMBIOS_CACHE_MAX_SIZE2 : Nat :=
  SYSINFO_ID_SMBIOS_CACHE_ASSOC + SYSINFO_CACHE_LVL_MAX

/-- Cache installed-size2 base id. -/
def SYSINFO_ID_SMBIOS_CACHE_INST_SIZE2 : Nat :=
  SYSINFO_ID_SMBIOS_CACHE_MAX_SIZE2 + SYSINFO_CACHE_LVL_MAX

/-! ## The string fact resolver (`smbios_add_prop_si`) -/

/-- One row of the `sysinfo_to_dt` remap table (`struct map_sysinfo`). -/
structure MapSysinfo where
  si_node : String
  si_str : String
  dt_str : String
  maxIdx : Nat

/-- The `sysinfo_to_dt` remap table: legacy root-level devicetree keys for
per-section facts. -/
def sysinfo_to_dt : List MapSysinfo :=
  [⟨"system", "product", "model", 2⟩,
   ⟨"system", "manufacturer", "compatible", 1⟩,
   ⟨"baseboard", "product", "model", 2⟩,
   ⟨"baseboard", "manufacturer", "compatible", 1⟩]

/-- `convert_sysinfo_to_dt(node, si)`: the first remap row whose section
and sysinfo names both match (`NULL` node matches nothing). -/
def convert_sysinfo_to_dt (node : Option String) (si : String) :
    Option MapSysinfo :=
  sysinfo_to_dt.find? (fun m => node == some m.si_node && si == m.si_str)

/-- The comma tokenization `strtok(str, ",")` performs: maximal runs of
non-comma bytes, empty runs skipped.  The `fuel` argument only bounds the
recursion (each step consumes at least one byte, so fuel equal to the list
length is never exhausted). -/
def splitTokensF : Nat → List Nat → List (List Nat)
  | _, [] => []
  | 0, _ => []
  | fuel + 1, b :: tl =>
    if b = 44 then splitTokensF fuel tl
    else
      let r := (b :: tl).takeWhile (fun x => x != 44)
      r :: splitTokensF fuel ((b :: tl).drop (r.length + 1))

/-- The comma tokenization of a byte list, with enough fuel. -/
def splitTokens (l : List Nat) : List (List Nat) :=
  splitTokensF l.length l

/-- `get_str_from_dt(nprop, str, size)`: read the remapped root property,
tokenize on commas and keep the token at index `max - 1`, truncating to the
last available token; empty when the row or property is missing or `max`
is 0.  The 128-byte copy buffer caps the value. -/
def get_str_from_dt (rootStrs : String → Option (List Nat))
    (nprop : Option MapSysinfo) : List Nat :=
  match nprop with
  | none => []
  | some m =>
    if m.maxIdx = 0 then []
    else match rootStrs m.dt_str with
    | none => []
    | some dt =>
      let s := dt.take 127
      let toks := splitTokens s
      if toks = [] then s
      else toks.getD (min m.maxIdx toks.length - 1) []

/-- The per-writer slice of `struct smbios_ctx`: the devicetree node and
subnode name the Assembler scoped for this writer. -/
structure WCtx where
  node : Option DtNode
  subnodeName : Option String

/-- The devicetree environment: the root node's string properties (for the
legacy remap lookups) and the `smbios` subnode of the sysinfo device's
node, when there is one. -/
structure DtEnv where
  rootStrs : String → Option (List Nat)
  smbiosNode : Option DtNode

/-- The external world of one build: the optional sysinfo device, the
devicetree, `env_get("serial#")`, and the compile-time `PLAIN_VERSION`
string (version formatting is outside the core). -/
structure WEnv where
  dev : Option SysinfoDev
  dt : DtEnv
  serialEnv : Option (List Nat)
  plainVersion : List Nat

/-- `smbios_add_prop_si(ctx, prop, sysinfo_id, dval)`: an empty default is
normalized to NULL; the sysinfo string tier wins when it answers; a NULL
property name adds the default; otherwise with devicetree control the
property is read from the scoped node, falling back — when the node is
invalid — to the root-level remap lookup; a non-empty value is added, else
the default. -/
def smbios_add_prop_si (env : WEnv) (ctx : WCtx) (c : SmbiosStrCtx)
    (prop : Option String) (sysinfo_id : Nat) (dval0 : Option (List Nat)) :
    AddRes :=
  let dval : Option (List Nat) :=
    match dval0 with
    | none => none
    | some d => if d = [] then none else some d
  match (if sysinfo_id ≠ 0 then sysinfo_get_str env.dev sysinfo_id else none) with
  | some val => smbios_add_string c (some val)
  | none =>
    match prop with
    | none => smbios_add_string c dval
    | some p =>
      if CONFIG_OF_CONTROL then
        match ctx.node with
        | some n =>
          smbios_add_string c
            (match n.strs p with
             | some s => if s ≠ [] then some s else dval
             | none => dval)
        | none =>
          let str_dt := get_str_from_dt env.dt.rootStrs
            (convert_sysinfo_to_dt ctx.subnodeName p)
          smbios_add_string c (if str_dt ≠ [] then some str_dt else dval)
      else ⟨c, 0⟩

/-- `smbios_add_prop(ctx, prop, dval)`: the resolver with a null fact id. -/
def smbios_add_prop (env : WEnv) (ctx : WCtx) (c : SmbiosStrCtx)
    (prop : Option String) (dval : Option (List Nat)) : AddRes :=
  smbios_add_prop_si env ctx c prop SYSINFO_ID_NONE dval

/-! ## Structure headers, type codes and fixed record sizes -/

/-- The common structure header `{type, length, handle}`. -/
structure SmbiosHeader where
  typ : Nat
  length : Nat
  handle : Nat
deriving Repr, DecidableEq

/-- Modelled from the spec: the two bytes every fixed record reserves at
its end for the string area (`SMBIOS_STRUCT_EOS_BYTES` in the header file,
not under `src/`); an untouched pool serializes as exactly these two
0 bytes. -/
def SMBIOS_STRUCT_EOS_BYTES : Nat := 2

/-- Modelled from the spec: `fill_smbios_header` (header file, not under
`src/`) stamps type, handle, and the formatted-area length, which is the
fixed size minus the reserved end-of-string bytes. -/
def fill_smbios_header (typ len handle : Nat) : SmbiosHeader :=
  ⟨typ, len - SMBIOS_STRUCT_EOS_BYTES, toU16n handle⟩

/-- Type code of the BIOS (firmware) information structure. -/
def SMBIOS_BIOS_INFORMATION : Nat := 0

/-- Type code of the system information structure. -/
def SMBIOS_SYSTEM_INFORMATION : Nat := 1

/-- Type code of the baseboard information structure. -/
def SMBIOS_BOARD_INFORMATION : Nat := 2

/-- Type code of the system enclosure (chassis) structure. -/
def SMBIOS_SYSTEM_ENCLOSURE : Nat := 3

/-- Type code of the processor information structure. -/
def SMBIOS_PROCESSOR_INFORMATION : Nat := 4

/-- Type code of the cache information structure. -/
def SMBIOS_CACHE_INFORMATION : Nat := 7

/-- Type code of the system boot information structure. -/
def SMBIOS_SYSTEM_BOOT_INFORMATION : Nat := 32

/-- Type code of the end-of-table marker structure. -/
def SMBIOS_END_OF_TABLE : Nat := 127

/-- Modelled from the spec: `sizeof(struct smbios_type0)` — the fixed
record layouts live in the header file, not under `src/`; the claims rely
only on each size exceeding the two reserved end-of-string bytes. -/
def sizeof_type0 : Nat := 28

/-- Modelled from the spec: `sizeof(struct smbios_type1)`. -/
def sizeof_type1 : Nat := 29

/-- Modelled from the spec: `sizeof(struct smbios_type2)`. -/
def sizeof_type2 : Nat := 17

/-- Modelled from the spec: `sizeof(struct smbios_type3)`. -/
def sizeof_type3 : Nat := 24

/-- Modelled from the spec: `sizeof(struct smbios_type4)`. -/
def sizeof_type4 : Nat := 50

/-- Modelled from the spec: `sizeof(struct smbios_type7)`. -/
def sizeof_type7 : Nat := 29

/-- Modelled from the spec: `sizeof(struct smbios_type32)`. -/
def sizeof_type32 : Nat := 22

/-- Modelled from the spec: `sizeof(struct smbios_type127)`. -/
def sizeof_type127 : Nat := 6

/-- Modelled from the spec: `sizeof(struct smbios3_entry)`, the 24-byte
entry-point descriptor. -/
def sizeof_smbios3_entry : Nat := 24

/-- Modelled from the spec: the "no cache" sentinel handle
(`SMBIOS_CACHE_HANDLE_NONE`, header file not under `src/`). -/
def SMBIOS_CACHE_HANDLE_NONE : Nat := 0xffff

/-- Modelled from the spec: the "unknown" processor family code. -/
def SMBIOS_PROCESSOR_FAMILY_UNKNOWN : Int := 2

/-- Modelled from the spec: the processor family code indicating the
extended `family2` field is in use. -/
def SMBIOS_PROCESSOR_FAMILY_EXT : Int := 0xfe

/-- Modelled from the spec: BIOS characteristic flag — PCI supported. -/
def BIOS_CHARACTERISTICS_PCI_SUPPORTED : Nat := 128

/-- Modelled from the spec: BIOS characteristic flag — upgradeable. -/
def BIOS_CHARACTERISTICS_UPGRADEABLE : Nat := 2048

/-- Modelled from the spec: BIOS characteristic flag — selectable boot. -/
def BIOS_CHARACTERISTICS_SELECTABLE_BOOT : Nat := 65536

/-- Modelled from the spec: BIOS extension-2 flag — targeted content
distribution. -/
def BIOS_CHARACTERISTICS_EXT2_TARGET : Nat := 4

/-- `U_BOOT_VERSION_NUM` of the build modelled here (release year). -/
def U_BOOT_VERSION_NUM : Nat := 2023

/-- `U_BOOT_VERSION_NUM_PATCH` of the build modelled here (release month). -/
def U_BOOT_VERSION_NUM_PATCH : Nat := 10

/-- `U_BOOT_DMI_MONTH`: the month part of the DMI release date, zero-padded
below 10. -/
def U_BOOT_DMI_MONTH : List Nat :=
  if U_BOOT_VERSION_NUM_PATCH < 10 then
    bytes ("0") ++ bytes (toString U_BOOT_VERSION_NUM_PATCH)
  else bytes (toString U_BOOT_VERSION_NUM_PATCH)

/-- `U_BOOT_DMI_DATE`: the BIOS release date `mm/01/yyyy` derived from the
U-Boot version macros. -/
def U_BOOT_DMI_DATE : List Nat :=
  U_BOOT_DMI_MONTH ++ bytes ("/01/") ++ bytes (toString U_BOOT_VERSION_NUM)

/-! ## The structure writers

Each writer mirrors its C function statement by statement: zero-fill is
reflected by fields defaulting to 0, the header is stamped first, the
string area reset (`smbios_set_eos`), fields populated in source order
through the resolver and the packer, and the returned length is the
formatted-area length plus the string-area length. -/

/-- The fields `smbios_write_type0` stores (firmware information). -/
structure Type0Out where
  hdr : SmbiosHeader
  vendor : Nat
  bios_ver : Nat
  bios_release_date : Nat
  bios_characteristics : Nat
  bios_characteristics_ext1 : Nat
  bios_characteristics_ext2 : Nat
  bios_major_release : Nat
  bios_minor_release : Nat
  ec_major_release : Nat
  ec_minor_release : Nat
  gdVersion : Option (List Nat)
  pool : List Nat
  len : Nat

/-- `smbios_write_type0`: vendor, version (recording its location in
`gd->smbios_version` when written) and release date; ROM-size fields are
compiled out (`CONFIG_ROM_SIZE` unset); characteristic flags are
compile-time constants (`CONFIG_GENERATE_ACPI_TABLE` and
`CONFIG_EFI_LOADER` unset). -/
def smbios_write_type0 (env : WEnv) (handle : Nat) (ctx : WCtx) : Type0Out :=
  let hdr := fill_smbios_header SMBIOS_BIOS_INFORMATION sizeof_type0 handle
  let aVendor := smbios_add_prop_si env ctx freshStrCtx none
    SYSINFO_ID_SMBIOS_BIOS_VENDOR (some (bytes ("U-Boot")))
  let aVer := smbios_add_prop_si env ctx aVendor.ctx (some ("version"))
    SYSINFO_ID_SMBIOS_BIOS_VER (some env.plainVersion)
  let gdV := if aVer.num ≠ 0 then aVer.ctx.lastStr else none
  let aDate := smbios_add_prop_si env ctx aVer.ctx none
    SYSINFO_ID_SMBIOS_BIOS_REL_DATE (some U_BOOT_DMI_DATE)
  { hdr := hdr
    vendor := toU8n aVendor.num
    bios_ver := toU8n aVer.num
    bios_release_date := toU8n aDate.num
    bios_characteristics := BIOS_CHARACTERISTICS_PCI_SUPPORTED |||
      BIOS_CHARACTERISTICS_SELECTABLE_BOOT ||| BIOS_CHARACTERISTICS_UPGRADEABLE
    bios_characteristics_ext1 := 0
    bios_characteristics_ext2 := BIOS_CHARACTERISTICS_EXT2_TARGET
    bios_major_release := U_BOOT_VERSION_NUM % 100
    bios_minor_release := U_BOOT_VERSION_NUM_PATCH
    ec_major_release := 255
    ec_minor_release := 255
    gdVersion := gdV
    pool := aDate.ctx.pool
    len := hdr.length + smbios_string_table_len aDate.ctx }

/-- The fields `smbios_write_type1` stores (system information). -/
structure Type1Out where
  hdr : SmbiosHeader
  manufacturer : Nat
  product_name : Nat
  version : Nat
  serial_number : Nat
  uuid : List Nat
  wakeup_type : Nat
  sku_number : Nat
  family : Nat
  pool : List Nat
  len : Nat

/-- `smbios_write_type1`: an environment-provided serial takes precedence
over both resolver tiers and is also copied (truncated) into the UUID
field; all other fields go through the resolver. -/
def smbios_write_type1 (env : WEnv) (handle : Nat) (ctx : WCtx) : Type1Out :=
  let hdr := fill_smbios_header SMBIOS_SYSTEM_INFORMATION sizeof_type1 handle
  let aMan := smbios_add_prop_si env ctx freshStrCtx (some ("manufacturer"))
    SYSINFO_ID_SMBIOS_SYSTEM_MANUFACTURER none
  let aProd := smbios_add_prop_si env ctx aMan.ctx (some ("product"))
    SYSINFO_ID_SMBIOS_SYSTEM_PRODUCT none
  let aVer := smbios_add_prop_si env ctx aProd.ctx (some ("version"))
    SYSINFO_ID_SMBIOS_SYSTEM_VERSION none
  let aSer := match env.serialEnv with
    | some s => smbios_add_prop env ctx aVer.ctx none (some s)
    | none => smbios_add_prop_si env ctx aVer.ctx (some ("serial"))
        SYSINFO_ID_SMBIOS_SYSTEM_SERIAL none
  let uuid := match env.serialEnv with
    | some s => s.take 15 ++ List.replicate (16 - min s.length 15) 0
    | none => List.replicate 16 0
  let wakeup := smbios_get_val_si env.dev ctx.node (some ("wakeup-type"))
    SYSINFO_ID_SMBIOS_SYSTEM_WAKEUP
  let aSku := smbios_add_prop_si env ctx aSer.ctx (some ("sku"))
    SYSINFO_ID_SMBIOS_SYSTEM_SKU none
  let aFam := smbios_add_prop_si env ctx aSku.ctx (some ("family"))
    SYSINFO_ID_SMBIOS_SYSTEM_FAMILY none
  { hdr := hdr
    manufacturer := toU8n aMan.num
    product_name := toU8n aProd.num
    version := toU8n aVer.num
    serial_number := toU8n aSer.num
    uuid := uuid
    wakeup_type := toU8 wakeup
    sku_number := toU8n aSku.num
    family := toU8n aFam.num
    pool := aFam.ctx.pool
    len := hdr.length + smbios_string_table_len aFam.ctx }

/-- The fields `smbios_write_type2` stores (baseboard information). -/
structure Type2Out where
  hdr : SmbiosHeader
  manufacturer : Nat
  product_name : Nat
  version : Nat
  serial_number : Nat
  asset_tag_number : Nat
  feature_flags : Nat
  chassis_location : Nat
  board_type : Nat
  chassis_handle : Nat
  pool : List Nat
  len : Nat

/-- `smbios_write_type2`: board fields through the resolver; contained
object handles are an unimplemented extension (zero reserved bytes); the
cross-referenced chassis handle is stored as this structure's handle
plus one. -/
def smbios_write_type2 (env : WEnv) (handle : Nat) (ctx : WCtx) : Type2Out :=
  let hdr := fill_smbios_header SMBIOS_BOARD_INFORMATION sizeof_type2 handle
  let aMan := smbios_add_prop_si env ctx freshStrCtx (some ("manufacturer"))
    SYSINFO_ID_SMBIOS_BASEBOARD_MANUFACTURER none
  let aProd := smbios_add_prop_si env ctx aMan.ctx (some ("product"))
    SYSINFO_ID_SMBIOS_BASEBOARD_PRODUCT none
  let aVer := smbios_add_prop_si env ctx aProd.ctx (some ("version"))
    SYSINFO_ID_SMBIOS_BASEBOARD_VERSION none
  let aSer := smbios_add_prop_si env ctx aVer.ctx (some ("serial"))
    SYSINFO_ID_SMBIOS_BASEBOARD_SERIAL none
  let aAsset := smbios_add_prop_si env ctx aSer.ctx (some ("asset-tag"))
    SYSINFO_ID_SMBIOS_BASEBOARD_ASSET_TAG none
  let feature := smbios_get_val_si env.dev ctx.node (some ("feature-flags"))
    SYSINFO_ID_SMBIOS_BASEBOARD_FEATURE
  let aLoc := smbios_add_prop_si env ctx aAsset.ctx (some ("chassis-location"))
    SYSINFO_ID_SMBIOS_BASEBOARD_CHASSIS_LOCAT none
  let btype := smbios_get_val_si env.dev ctx.node (some ("board-type"))
    SYSINFO_ID_SMBIOS_BASEBOARD_TYPE
  { hdr := hdr
    manufacturer := toU8n aMan.num
    product_name := toU8n aProd.num
    version := toU8n aVer.num
    serial_number := toU8n aSer.num
    asset_tag_number := toU8n aAsset.num
    feature_flags := toU8 feature
    chassis_location := toU8n aLoc.num
    board_type := toU8 btype
    chassis_handle := toU16n (handle + 1)
    pool := aLoc.ctx.pool
    len := hdr.length + smbios_string_table_len aLoc.ctx }

/-- The fields `smbios_write_type3` stores (chassis information). -/
structure Type3Out where
  hdr : SmbiosHeader
  manufacturer : Nat
  chassis_type : Nat
  version : Nat
  serial_number : Nat
  asset_tag_number : Nat
  bootup_state : Nat
  power_supply_state : Nat
  thermal_state : Nat
  security_status : Nat
  oem_defined : Nat
  height : Nat
  number_of_power_cords : Nat
  sku_number : Nat
  pool : List Nat
  len : Nat

/-- `smbios_write_type3`: chassis fields through the resolver; contained
element records are an unimplemented extension (zero reserved bytes), so
the SKU byte sits directly at its fixed offset. -/
def smbios_write_type3 (env : WEnv) (handle : Nat) (ctx : WCtx) : Type3Out :=
  let hdr := fill_smbios_header SMBIOS_SYSTEM_ENCLOSURE sizeof_type3 handle
  let aMan := smbios_add_prop_si env ctx freshStrCtx (some ("manufacturer"))
    SYSINFO_ID_SMBIOS_ENCLOSURE_MANUFACTURER none
  let ctype := smbios_get_val_si env.dev ctx.node (some ("chassis-type"))
    SYSINFO_ID_SMBIOS_ENCLOSURE_TYPE
  let aVer := smbios_add_prop_si env ctx aMan.ctx (some ("version"))
    SYSINFO_ID_SMBIOS_ENCLOSURE_VERSION none
  let aSer := smbios_add_prop_si env ctx aVer.ctx (some ("serial"))
    SYSINFO_ID_SMBIOS_ENCLOSURE_SERIAL none
  let aAsset := smbios_add_prop_si env ctx aSer.ctx (some ("asset-tag"))
    SYSINFO_ID_SMBIOS_BASEBOARD_ASSET_TAG none
  let bootup := smbios_get_val_si env.dev ctx.node (some ("bootup-state"))
    SYSINFO_ID_SMBIOS_ENCLOSURE_BOOTUP
  let pow := smbios_get_val_si env.dev ctx.node (some ("power-supply-state"))
    SYSINFO_ID_SMBIOS_ENCLOSURE_POW
  let thermal := smbios_get_val_si env.dev ctx.node (some ("thermal-state"))
    SYSINFO_ID_SMBIOS_ENCLOSURE_THERMAL
  let security := smbios_get_val_si env.dev ctx.node (some ("security-status"))
    SYSINFO_ID_SMBIOS_ENCLOSURE_SECURITY
  let oem := smbios_get_val_si env.dev ctx.node (some ("oem-defined"))
    SYSINFO_ID_SMBIOS_ENCLOSURE_OEM
  let height := smbios_get_val_si env.dev ctx.node (some ("height"))
    SYSINFO_ID_SMBIOS_ENCLOSURE_HEIGHT
  let cords := smbios_get_val_si env.dev ctx.node
    (some ("number-of-power-cords")) SYSINFO_ID_SMBIOS_ENCLOSURE_POWCORE_NUM
  let aSku := smbios_add_prop_si env ctx aAsset.ctx (some ("sku"))
    SYSINFO_ID_SMBIOS_ENCLOSURE_SKU none
  { hdr := hdr
    manufacturer := toU8n aMan.num
    chassis_type := toU8 ctype
    version := toU8n aVer.num
    serial_number := toU8n aSer.num
    asset_tag_number := toU8n aAsset.num
    bootup_state := toU8 bootup
    power_supply_state := toU8 pow
    thermal_state := toU8 thermal
    security_status := toU8 security
    oem_defined := toU32 oem
    height := toU8 height
    number_of_power_cords := toU8 cords
    sku_number := toU8n aSku.num
    pool := aSku.ctx.pool
    len := hdr.length + smbios_string_table_len aSku.ctx }

/-- The CPU-identity fields `smbios_write_type4_dm` computes. -/
structure Type4DmOut where
  processor_family : Int
  processor_family2 : Int
  processor_manufacturer : Nat
  processor_version : Nat
  processor_id : List Nat
  strctx : SmbiosStrCtx

/-- `smbios_write_type4_dm`: with `CONFIG_CPU` disabled the CPU
collaborator tier is compiled out, so the family starts "unknown" and is
taken from the resolver, `family2` only when the family is the extended
code; manufacturer and version fall back to NULL defaults; the processor
id words are zero, so the id blob fact is consulted and copied when it has
exactly the 8 expected bytes. -/
def smbios_write_type4_dm (env : WEnv) (ctx : WCtx) (c : SmbiosStrCtx) :
    Type4DmOut :=
  let family0 : Int := SMBIOS_PROCESSOR_FAMILY_UNKNOWN
  let family : Int :=
    if family0 = SMBIOS_PROCESSOR_FAMILY_UNKNOWN then
      smbios_get_val_si env.dev ctx.node (some ("family"))
        SYSINFO_ID_SMBIOS_PROCESSOR_FAMILY
    else family0
  let family2 : Int :=
    if family = SMBIOS_PROCESSOR_FAMILY_EXT then
      smbios_get_val_si env.dev ctx.node (some ("family2"))
        SYSINFO_ID_SMBIOS_PROCESSOR_FAMILY2
    else 0
  let aMan := smbios_add_prop_si env ctx c (some ("manufacturer"))
    SYSINFO_ID_SMBIOS_PROCESSOR_MANUFACT none
  let aVer := smbios_add_prop_si env ctx aMan.ctx (some ("version"))
    SYSINFO_ID_SMBIOS_PROCESSOR_VERSION none
  let pid : List Nat :=
    match sysinfo_get_data_procid env.dev with
    | none => List.replicate 8 0
    | some d => if d.length = 8 then d else List.replicate 8 0
  { processor_family := family
    processor_family2 := family2
    processor_manufacturer := toU8n aMan.num
    processor_version := toU8n aVer.num
    processor_id := pid
    strctx := aVer.ctx }

/-- The fields `smbios_write_type4` stores (processor information). -/
structure Type4Out where
  hdr : SmbiosHeader
  socket_design : Nat
  processor_type : Nat
  processor_family : Nat
  processor_family2 : Nat
  processor_manufacturer : Nat
  processor_version : Nat
  processor_id : List Nat
  voltage : Nat
  external_clock : Nat
  max_speed : Nat
  current_speed : Nat
  status : Nat
  processor_upgrade : Nat
  l1_cache_handle : Nat
  l2_cache_handle : Nat
  l3_cache_handle : Nat
  serial_number : Nat
  asset_tag : Nat
  part_number : Nat
  core_count : Nat
  core_enabled : Nat
  thread_count : Nat
  processor_characteristics : Nat
  core_count2 : Nat
  core_enabled2 : Nat
  thread_count2 : Nat
  thread_enabled : Nat
  pool : List Nat
  len : Nat

/-- `smbios_write_type4`: processor fields through the resolver; the three
cache-handle fields start at the "no cache" sentinel and each is
overwritten with its slot of the cache-handle blob fact only when the blob
is readable, exactly `SYSINFO_CACHE_LVL_MAX` 16-bit slots long, and the
slot is nonzero. -/
def smbios_write_type4 (env : WEnv) (handle : Nat) (ctx : WCtx)
    (blob : Option (List Nat)) : Type4Out :=
  let hdr := fill_smbios_header SMBIOS_PROCESSOR_INFORMATION sizeof_type4 handle
  let aSocket := smbios_add_prop_si env ctx freshStrCtx (some ("socket-design"))
    SYSINFO_ID_SMBIOS_PROCESSOR_SOCKET none
  let ptype := smbios_get_val_si env.dev ctx.node (some ("processor-type"))
    SYSINFO_ID_SMBIOS_PROCESSOR_TYPE
  let dm := smbios_write_type4_dm env ctx aSocket.ctx
  let voltage := smbios_get_val_si env.dev ctx.node (some ("voltage"))
    SYSINFO_ID_SMBIOS_PROCESSOR_VOLTAGE
  let extClock := smbios_get_val_si env.dev ctx.node (some ("external-clock"))
    SYSINFO_ID_SMBIOS_PROCESSOR_EXT_CLOCK
  let maxSpeed := smbios_get_val_si env.dev ctx.node (some ("max-speed"))
    SYSINFO_ID_SMBIOS_PROCESSOR_MAX_SPEED
  let curSpeed := smbios_get_val_si env.dev ctx.node (some ("current-speed"))
    SYSINFO_ID_SMBIOS_PROCESSOR_CUR_SPEED
  let status := smbios_get_val_si env.dev ctx.node (some ("processor-status"))
    SYSINFO_ID_SMBIOS_PROCESSOR_STATUS
  let upgrade := smbios_get_val_si env.dev ctx.node (some ("upgrade"))
    SYSINFO_ID_SMBIOS_PROCESSOR_UPGRADE
  let hdlData := sysinfo_get_data_cache env.dev blob
  let l1 :=
    match hdlData with
    | some b =>
      if b.length = SYSINFO_CACHE_LVL_MAX * 2 then
        if readU16le b 0 ≠ 0 then readU16le b 0 else SMBIOS_CACHE_HANDLE_NONE
      else SMBIOS_CACHE_HANDLE_NONE
    | none => SMBIOS_CACHE_HANDLE_NONE
  let l2 :=
    match hdlData with
    | some b =>
      if b.length = SYSINFO_CACHE_LVL_MAX * 2 then
        if readU16le b 2 ≠ 0 then readU16le b 2 else SMBIOS_CACHE_HANDLE_NONE
      else SMBIOS_CACHE_HANDLE_NONE
    | none => SMBIOS_CACHE_HANDLE_NONE
  let l3 :=
    match hdlData with
    | some b =>
      if b.length = SYSINFO_CACHE_LVL_MAX * 2 then
        if readU16le b 4 ≠ 0 then readU16le b 4 else SMBIOS_CACHE_HANDLE_NONE
      else SMBIOS_CACHE_HANDLE_NONE
    | none => SMBIOS_CACHE_HANDLE_NONE
  let aSer := smbios_add_prop_si env ctx dm.strctx (some ("serial"))
    SYSINFO_ID_SMBIOS_PROCESSOR_SN none
  let aAsset := smbios_add_prop_si env ctx aSer.ctx (some ("asset-tag"))
    SYSINFO_ID_SMBIOS_PROCESSOR_ASSET_TAG none
  let aPart := smbios_add_prop_si env ctx aAsset.ctx (some ("part-number"))
    SYSINFO_ID_SMBIOS_PROCESSOR_PN none
  let coreCnt := smbios_get_val_si env.dev ctx.node (some ("core-count"))
    SYSINFO_ID_SMBIOS_PROCESSOR_CORE_CNT
  let coreEn := smbios_get_val_si env.dev ctx.node (some ("core-enabled"))
    SYSINFO_ID_SMBIOS_PROCESSOR_CORE_EN
  let threadCnt := smbios_get_val_si env.dev ctx.node (some ("thread-count"))
    SYSINFO_ID_SMBIOS_PROCESSOR_THREAD_CNT
  let chara := smbios_get_val_si env.dev ctx.node (some ("characteristics"))
    SYSINFO_ID_SMBIOS_PROCESSOR_CHARA
  let coreCnt2 := smbios_get_val_si env.dev ctx.node (some ("core-count2"))
    SYSINFO_ID_SMBIOS_PROCESSOR_CORE_CNT2
  let coreEn2 := smbios_get_val_si env.dev ctx.node (some ("core-enabled2"))
    SYSINFO_ID_SMBIOS_PROCESSOR_CORE_EN2
  let threadCnt2 := smbios_get_val_si env.dev ctx.node (some ("thread-count2"))
    SYSINFO_ID_SMBIOS_PROCESSOR_THREAD_CNT2
  let threadEn := smbios_get_val_si env.dev ctx.node (some ("thread-enabled"))
    SYSINFO_ID_SMBIOS_PROCESSOR_THREAD_EN
  { hdr := hdr
    socket_design := toU8n aSocket.num
    processor_type := toU8 ptype
    processor_family := toU8 dm.processor_family
    processor_family2 := toU16 dm.processor_family2
    processor_manufacturer := dm.processor_manufacturer
    processor_version := dm.processor_version
    processor_id := dm.processor_id
    voltage := toU8 voltage
    external_clock := toU16 extClock
    max_speed := toU16 maxSpeed
    current_speed := toU16 curSpeed
    status := toU8 status
    processor_upgrade := toU8 upgrade
    l1_cache_handle := l1
    l2_cache_handle := l2
    l3_cache_handle := l3
    serial_number := toU8n aSer.num
    asset_tag := toU8n aAsset.num
    part_number := toU8n aPart.num
    core_count := toU8 coreCnt
    core_enabled := toU8 coreEn
    thread_count := toU8 threadCnt
    processor_characteristics := toU16 chara
    core_count2 := toU16 coreCnt2
    core_enabled2 := toU16 coreEn2
    thread_count2 := toU16 threadCnt2
    thread_enabled := toU16 threadEn
    pool := aPart.ctx.pool
    len := hdr.length + smbios_string_table_len aPart.ctx }

/-- The fields `smbios_write_type7_1level` stores (one cache level), plus
the cache-handle blob contents after the writer ran. -/
structure Type7Out where
  hdr : SmbiosHeader
  socket_design : Nat
  cache_cfg : Nat
  max_size : Nat
  inst_size : Nat
  supp_sram_type : Nat
  curr_sram_type : Nat
  speed : Nat
  err_corr_type : Nat
  sys_cache_type : Nat
  associativity : Nat
  max_size2 : Nat
  inst_size2 : Nat
  pool : List Nat
  len : Nat
  blob : Option (List Nat)

/-- `smbios_write_type7_1level`: every cache attribute is resolved at
`base id + level` (the contiguous-block invariant); afterwards, when the
cache-handle blob fact is readable and exactly `SYSINFO_CACHE_LVL_MAX`
16-bit slots long, this structure's handle is stored into the slot at its
level index. -/
def smbios_write_type7_1level (env : WEnv) (handle : Nat) (ctx : WCtx)
    (blob0 : Option (List Nat)) (level : Nat) : Type7Out :=
  let hdr := fill_smbios_header SMBIOS_CACHE_INFORMATION sizeof_type7 handle
  let aSocket := smbios_add_prop_si env ctx freshStrCtx (some ("socket-design"))
    (SYSINFO_ID_SMBIOS_CACHE_SOCKET + level) none
  let cfg := smbios_get_val_si env.dev ctx.node (some ("config"))
    (SYSINFO_ID_SMBIOS_CACHE_CONFIG + level)
  let maxSize := smbios_get_val_si env.dev ctx.node (some ("max-size"))
    (SYSINFO_ID_SMBIOS_CACHE_MAX_SIZE + level)
  let instSize := smbios_get_val_si env.dev ctx.node (some ("installed-size"))
    (SYSINFO_ID_SMBIOS_CACHE_INST_SIZE + level)
  let supSram := smbios_get_val_si env.dev ctx.node
    (some ("supported-sram-type")) (SYSINFO_ID_SMBIOS_CACHE_SUPSRAM_TYPE + level)
  let curSram := smbios_get_val_si env.dev ctx.node
    (some ("current-sram-type")) (SYSINFO_ID_SMBIOS_CACHE_CURSRAM_TYPE + level)
  let speed := smbios_get_val_si env.dev ctx.node (some ("speed"))
    (SYSINFO_ID_SMBIOS_CACHE_SPEED + level)
  let errCor := smbios_get_val_si env.dev ctx.node
    (some ("error-correction-type")) (SYSINFO_ID_SMBIOS_CACHE_ERRCOR_TYPE + level)
  let scType := smbios_get_val_si env.dev ctx.node
    (some ("system-cache-type")) (SYSINFO_ID_SMBIOS_CACHE_SCACHE_TYPE + level)
  let assoc := smbios_get_val_si env.dev ctx.node (some ("associativity"))
    (SYSINFO_ID_SMBIOS_CACHE_ASSOC + level)
  let maxSize2 := smbios_get_val_si env.dev ctx.node (some ("max-size2"))
    (SYSINFO_ID_SMBIOS_CACHE_MAX_SIZE2 + level)
  let instSize2 := smbios_get_val_si env.dev ctx.node (some ("installed-size2"))
    (SYSINFO_ID_SMBIOS_CACHE_INST_SIZE2 + level)
  let blob1 :=
    match sysinfo_get_data_cache env.dev blob0 with
    | none => blob0
    | some b =>
      if b.length = SYSINFO_CACHE_LVL_MAX * 2 then
        some (writeU16le b (2 * level) handle)
      else blob0
  { hdr := hdr
    socket_design := toU8n aSocket.num
    cache_cfg := toU16 cfg
    max_size := toU16 maxSize
    inst_size := toU16 instSize
    supp_sram_type := toU16 supSram
    curr_sram_type := toU16 curSram
    speed := toU8 speed
    err_corr_type := toU8 errCor
    sys_cache_type := toU8 scType
    associativity := toU8 assoc
    max_size2 := toU32 maxSize2
    inst_size2 := toU32 instSize2
    pool := aSocket.ctx.pool
    len := hdr.length + smbios_string_table_len aSocket.ctx
    blob := blob1 }

/-- The result of the cache-info writer group: total length, the emitted
per-level structures in order, and the cache-handle blob afterwards. -/
structure Type7GroupOut where
  len : Nat
  outs : List Type7Out
  blob : Option (List Nat)

/-- The `for (i = 0; i <= level; i++)` loop of `smbios_write_type7`: each
iteration scopes the context to the `l<i+1>-cache` subnode of the cache
section node, writes one cache structure with the next handle, and the
context is restored afterwards (value semantics make the restore
implicit). -/
def type7Levels (env : WEnv) (parent : Option DtNode)
    (blob : Option (List Nat)) (handle : Nat) (i : Nat) :
    Nat → Type7GroupOut
  | 0 => ⟨0, [], blob⟩
  | n + 1 =>
    let name := "l" ++ toString (i + 1) ++ "-cache"
    let node := ofnode_find_subnode parent name
    let o := smbios_write_type7_1level env handle ⟨node, some name⟩ blob i
    let rest := type7Levels env parent o.blob (handle + 1) (i + 1) n
    ⟨o.len + rest.len, o :: rest.outs, rest.blob⟩

/-- `smbios_write_type7`: the level-count fact (no devicetree property
backs it) selects how many cache structures to emit; a count at or beyond
`SYSINFO_CACHE_LVL_MAX` is an error and the whole group is skipped with
length 0.  The loop runs `level + 1` times (none when the count is
negative), handing out consecutive handles. -/
def smbios_write_type7 (env : WEnv) (handle : Nat) (ctx : WCtx)
    (blob : Option (List Nat)) : Type7GroupOut :=
  let level := smbios_get_val_si env.dev ctx.node none
    SYSINFO_ID_SMBIOS_CACHE_LEVEL
  if level ≥ (SYSINFO_CACHE_LVL_MAX : Int) then ⟨0, [], blob⟩
  else type7Levels env ctx.node blob handle 0 (level + 1).toNat

/-- The fields `smbios_write_type32` stores (boot information): header
only, fixed length, no fact lookups and no strings. -/
structure Type32Out where
  hdr : SmbiosHeader
  len : Nat

/-- `smbios_write_type32`: header plus reserved zero bytes, fixed length. -/
def smbios_write_type32 (handle : Nat) : Type32Out :=
  ⟨fill_smbios_header SMBIOS_SYSTEM_BOOT_INFORMATION sizeof_type32 handle,
   sizeof_type32⟩

/-- The fields `smbios_write_type127` stores (end-of-table marker). -/
structure Type127Out where
  hdr : SmbiosHeader
  len : Nat

/-- `smbios_write_type127`: header only, fixed length. -/
def smbios_write_type127 (handle : Nat) : Type127Out :=
  ⟨fill_smbios_header SMBIOS_END_OF_TABLE sizeof_type127 handle,
   sizeof_type127⟩

/-! ## The table assembler (`write_smbios_table`) -/

/-- The emission record of one structure: its type code, stamped handle,
total bytes written, and — for the board structure — the chassis-handle
field it stored. -/
structure Emitted where
  typ : Nat
  handle : Nat
  len : Nat
  chassisHandle : Option Nat
deriving Repr, DecidableEq

/-- What the assembler observes of one writer invocation: bytes written,
structures emitted, and the cache-handle blob afterwards. -/
structure WriterRes where
  len : Nat
  emitted : List Emitted
  blob : Option (List Nat)

/-- The uniform writer signature of the method table
(`smbios_write_type`). -/
def SmbiosWriteType : Type :=
  WEnv → Nat → WCtx → Option (List Nat) → WriterRes

/-- The type-0 writer under the uniform signature. -/
def wrap_type0 : SmbiosWriteType := fun env handle ctx blob =>
  let o := smbios_write_type0 env handle ctx
  ⟨o.len, [⟨o.hdr.typ, o.hdr.handle, o.len, none⟩], blob⟩

/-- The type-1 writer under the uniform signature. -/
def wrap_type1 : SmbiosWriteType := fun env handle ctx blob =>
  let o := smbios_write_type1 env handle ctx
  ⟨o.len, [⟨o.hdr.typ, o.hdr.handle, o.len, none⟩], blob⟩

/-- The type-2 writer under the uniform signature; its emission record
carries the stored chassis-handle field. -/
def wrap_type2 : SmbiosWriteType := fun env handle ctx blob =>
  let o := smbios_write_type2 env handle ctx
  ⟨o.len, [⟨o.hdr.typ, o.hdr.handle, o.len, some o.chassis_handle⟩], blob⟩

/-- The type-3 writer under the uniform signature. -/
def wrap_type3 : SmbiosWriteType := fun env handle ctx blob =>
  let o := smbios_write_type3 env handle ctx
  ⟨o.len, [⟨o.hdr.typ, o.hdr.handle, o.len, none⟩], blob⟩

/-- The type-4 writer under the uniform signature. -/
def wrap_type4 : SmbiosWriteType := fun env handle ctx blob =>
  let o := smbios_write_type4 env handle ctx blob
  ⟨o.len, [⟨o.hdr.typ, o.hdr.handle, o.len, none⟩], blob⟩

/-- The type-7 writer group under the uniform signature; it may emit any
number of structures and update the cache-handle blob. -/
def wrap_type7 : SmbiosWriteType := fun env handle ctx blob =>
  let o := smbios_write_type7 env handle ctx blob
  ⟨o.len, o.outs.map (fun t => ⟨t.hdr.typ, t.hdr.handle, t.len, none⟩), o.blob⟩

/-- The type-32 writer under the uniform signature. -/
def wrap_type32 : SmbiosWriteType := fun _ handle _ blob =>
  let o := smbios_write_type32 handle
  ⟨o.len, [⟨o.hdr.typ, o.hdr.handle, o.len, none⟩], blob⟩

/-- The type-127 writer under the uniform signature. -/
def wrap_type127 : SmbiosWriteType := fun _ handle _ blob =>
  let o := smbios_write_type127 handle
  ⟨o.len, [⟨o.hdr.typ, o.hdr.handle, o.len, none⟩], blob⟩

/-- One row of the method table (`struct smbios_write_method`). -/
structure SmbiosWriteMethod where
  write : SmbiosWriteType
  subnodeName : Option String

/-- The ordered method table `smbios_write_funcs`: type 3 must immediately
follow type 2 (chassis handle), and type 7 must precede type 4 (cache
handles). -/
def smbios_write_funcs : List SmbiosWriteMethod :=
  [⟨wrap_type0, some ("bios")⟩,
   ⟨wrap_type1, some ("system")⟩,
   ⟨wrap_type2, some ("baseboard")⟩,
   ⟨wrap_type3, some ("chassis")⟩,
   ⟨wrap_type7, some ("cache")⟩,
   ⟨wrap_type4, some ("processor")⟩,
   ⟨wrap_type32, none⟩,
   ⟨wrap_type127, none⟩]

/-- The assembler's loop state: accumulated length, next handle, the
context's current node and subnode name (the node is only re-scoped for
methods that name a subnode), the cache-handle blob, and the structures
emitted so far. -/
structure AsmState where
  len : Nat
  handle : Nat
  node : Option DtNode
  subnodeName : Option String
  blob : Option (List Nat)
  structs : List Emitted

/-- One iteration of the assembler loop: scope the context, invoke the
writer with the current handle, and advance the handle by one. -/
def stepWriter (env : WEnv) (parentNode : Option DtNode)
    (st : AsmState) (m : SmbiosWriteMethod) : AsmState :=
  let node :=
    match m.subnodeName with
    | some nm =>
      if CONFIG_OF_CONTROL then ofnode_find_subnode parentNode nm else st.node
    | none => st.node
  let r := m.write env st.handle ⟨node, m.subnodeName⟩ st.blob
  ⟨st.len + r.len, st.handle + 1, node, m.subnodeName, r.blob,
   st.structs ++ r.emitted⟩

/-- Modelled from the spec: the entry-point descriptor's major version
(header file not under `src/`). -/
def SMBIOS_MAJOR_VER : Nat := 3

/-- Modelled from the spec: the entry-point descriptor's minor version. -/
def SMBIOS_MINOR_VER : Nat := 7

/-- Modelled from the spec: the byte layout of `struct smbios3_entry` —
anchor `_SM3_`, checksum, length, major/minor version, doc revision,
entry-point revision, a reserved byte, the 32-bit maximum table size and
the 64-bit table address (the layout lives in the header file, not under
`src/`; the fields and their values are those `write_smbios_table`
assigns). -/
def smbios3_entry_bytes (checksum maxSize tableAddr : Nat) : List Nat :=
  [0x5f, 0x53, 0x4d, 0x33, 0x5f] ++
    [toU8n checksum, sizeof_smbios3_entry, SMBIOS_MAJOR_VER, SMBIOS_MINOR_VER,
     0, 1, 0] ++
    u32le maxSize ++ u64le tableAddr

/-- Modelled from the spec: `table_compute_checksum` (`tables_csum`, not
under `src/`) — the byte that makes the record, whose checksum slot is
still zero, sum to zero modulo 256. -/
def table_compute_checksum (l : List Nat) : Nat :=
  (256 - l.sum % 256) % 256

/-- `ALIGN(x, a)`: round `x` up to a multiple of `a`. -/
def ALIGN (x a : Nat) : Nat :=
  (x + a - 1) / a * a

/-- The build result: the emitted structures in order, the total table
length, the aligned table address, the entry-point descriptor bytes, and
the returned address past the end of the table. -/
structure BuildOut where
  structs : List Emitted
  len : Nat
  tableAddr : Nat
  entryBytes : List Nat
  retAddr : Nat

/-- `write_smbios_table(addr)`: locate the optional sysinfo device and its
`smbios` subnode, run detection (failure ignored), reserve the descriptor
and align the first structure to 16 bytes, run every writer in table order
handing out handles sequentially from 0, then write the descriptor with
the total length, the table address and the balancing checksum. -/
def write_smbios_table (env : WEnv) (addr : Nat) : BuildOut :=
  let parentNode : Option DtNode :=
    match env.dev with
    | some _ => env.dt.smbiosNode
    | none => none
  let blob0 : Option (List Nat) :=
    match env.dev with
    | some d => d.cacheBlob0
    | none => none
  let tables := ALIGN (addr + sizeof_smbios3_entry) 16
  let st := smbios_write_funcs.foldl (stepWriter env parentNode)
    ⟨0, 0, none, none, blob0, []⟩
  let csum := table_compute_checksum (smbios3_entry_bytes 0 st.len tables)
  { structs := st.structs
    len := st.len
    tableAddr := tables
    entryBytes := smbios3_entry_bytes csum st.len tables
    retAddr := tables + st.len }

/-! ## Concrete environments for witnesses and counterexamples -/

/-- A devicetree node holding the single `u32` property
`wakeup-type = 5`, exercising the configuration-subtree tier. -/
def wakeupNode : DtNode :=
  .mk (fun p => if p = "wakeup-type" then some 5 else none)
    (fun _ => none) (fun _ => none)

/-- A sysinfo device whose only fact is a cache level count of 1, making
the cache-info group emit two structures. -/
def cacheLvl1Dev : SysinfoDev :=
  { detectOk := true
    ints := fun id =>
      if id = SYSINFO_ID_SMBIOS_CACHE_LEVEL then some 1 else none
    strs := fun _ => none
    procIdData := none
    cacheBlob0 := none }

/-- An environment with the two-cache-level device, no devicetree content
and no environment serial: a minimal build emitting two cache-info
structures. -/
def cacheLvl1Env : WEnv :=
  { dev := some cacheLvl1Dev
    dt := { rootStrs := fun _ => none, smbiosNode := none }
    serialEnv := none
    plainVersion := bytes ("2023.10") }

/-- A sysinfo device reporting a cache level count of
`SYSINFO_CACHE_LVL_MAX + 1`, beyond the supported maximum. -/
def cacheLvl4Dev : SysinfoDev :=
  { detectOk := true
    ints := fun id =>
      if id = SYSINFO_ID_SMBIOS_CACHE_LEVEL then
        some ((SYSINFO_CACHE_LVL_MAX : Int) + 1)
      else none
    strs := fun _ => none
    procIdData := none
    cacheBlob0 := none }

/-- An environment requesting one cache level more than the supported
maximum. -/
def cacheLvl4Env : WEnv :=
  { dev := some cacheLvl4Dev
    dt := { rootStrs := fun _ => none, smbiosNode := none }
    serialEnv := none
    plainVersion := bytes ("2023.10") }

/-- A sysinfo device exposing a well-formed six-byte cache-handle data
area with handles 5, 0 and 7 in its three 16-bit slots. -/
def blobDev : SysinfoDev :=
  { detectOk := true
    ints := fun _ => none
    strs := fun _ => none
    procIdData := none
    cacheBlob0 := some [5, 0, 0, 0, 7, 0] }

/-- An environment with the cache-handle-blob device. -/
def blobEnv : WEnv :=
  { dev := some blobDev
    dt := { rootStrs := fun _ => none, smbiosNode := none }
    serialEnv := none
    plainVersion := bytes ("2023.10") }

/-! ## Helper lemmas on byte lists -/

/-- A run selected by `takeWhile (· != 0)` holds no 0 byte. -/
theorem zero_not_mem_takeWhile (l : List Nat) :
    (0 : Nat) ∉ l.takeWhile (fun x => x != 0) := by
  intro h
  have := List.mem_takeWhile_imp h
  simp at this

/-- A list without 0 bytes is its own nonzero run. -/
theorem takeWhile_eq_self_of_no_zero (s : List Nat) (h : (0 : Nat) ∉ s) :
    s.takeWhile (fun x => x != 0) = s := by
  rw [List.takeWhile_eq_self_iff]
  intro x hx
  simp only [bne_iff_ne, ne_eq]
  exact fun e => h (e ▸ hx)

/-- The nonzero run of a NUL-terminated string is the string. -/
theorem takeWhile_run (S t : List Nat) (h : (0 : Nat) ∉ S) :
    (S ++ 0 :: t).takeWhile (fun x => x != 0) = S := by
  have hp : ∀ a ∈ S, (a != 0) = true := by
    intro a ha
    simp only [bne_iff_ne, ne_eq]
    exact fun e => h (e ▸ ha)
  rw [List.takeWhile_append_of_pos hp, List.takeWhile_cons]
  simp

/-- Dropping a run and its terminator reaches the following bytes. -/
theorem drop_run (S t : List Nat) :
    (S ++ 0 :: t).drop (S.length + 1) = t := by
  have h1 : S ++ 0 :: t = (S ++ [0]) ++ t := by simp
  have h2 : S.length + 1 = (S ++ [0]).length := by simp
  rw [h1, h2, List.drop_left]

/-- `strnlen` is the capped length of the leading nonzero run. -/
theorem strnlen_eq (l : List Nat) (m : Nat) :
    strnlen l m = min m (l.takeWhile (fun b => b != 0)).length := by
  unfold strnlen
  rw [← List.take_takeWhile, List.length_take]

/-- `strnlen` of a NUL-terminated string shorter than the cap is its
length. -/
theorem strnlen_terminated (S t : List Nat) (m : Nat) (h : (0 : Nat) ∉ S)
    (hm : S.length < m) : strnlen (S ++ 0 :: t) m = S.length := by
  rw [strnlen_eq, takeWhile_run S t h]
  omega

/-- `strnlen` of a zero-free string is its length capped at `maxlen`. -/
theorem strnlen_no_zero (s : List Nat) (m : Nat) (h : (0 : Nat) ∉ s) :
    strnlen s m = min m s.length := by
  rw [strnlen_eq, takeWhile_eq_self_of_no_zero s h]

/-- Patching over a stored NUL-terminated string `S` with a string no
longer than `S` succeeds and yields the in-place-copied buffer. -/
theorem update_version_ok_eq (S t version : List Nat)
    (hS : (0 : Nat) ∉ S) (hv : (0 : Nat) ∉ version)
    (hmax : S.length < SMBIOS_STR_MAX) (hle : version.length ≤ S.length) :
    smbios_update_version ⟨some (S ++ 0 :: t)⟩ version =
      .ok (version ++ (S ++ 0 :: t).drop version.length) := by
  simp only [smbios_update_version]
  rw [strnlen_terminated S t _ hS hmax, strnlen_no_zero version _ hv]
  have hmin : min SMBIOS_STR_MAX version.length = version.length := by omega
  rw [hmin, if_neg (by omega), List.take_length]

/-- Patching over a stored NUL-terminated string `S` with a strictly
longer string fails with the length-exceeded error. -/
theorem update_version_long_eq (S t version : List Nat)
    (hS : (0 : Nat) ∉ S) (hv : (0 : Nat) ∉ version)
    (hmax : S.length < SMBIOS_STR_MAX) (hlong : S.length < version.length) :
    smbios_update_version ⟨some (S ++ 0 :: t)⟩ version = .error ENOSPC_NEG := by
  simp only [smbios_update_version]
  rw [strnlen_terminated S t _ hS hmax, strnlen_no_zero version _ hv]
  rw [if_pos (by omega)]

/-- C4: `smbios_update_version` fails with the not-yet-written error
(`-ENOENT`) when invoked before the firmware-info writer has recorded a
version-string location; with a recorded NUL-terminated string `S`
(shorter than the `SMBIOS_STR_MAX` cap) it fails with the length-exceeded
error (`-ENOSPC`) when the new string is longer than `S`, and succeeds
(returning the patched buffer, where the C returns 0 after mutating in
place) when the new length is at most the stored length. -/
theorem smbios_update_version_spec (S t version : List Nat)
    (hS : (0 : Nat) ∉ S) (hv : (0 : Nat) ∉ version)
    (hmax : S.length < SMBIOS_STR_MAX) :
    (∀ v : List Nat, smbios_update_version ⟨none⟩ v = .error ENOENT_NEG) ∧
    (S.length < version.length →
      smbios_update_version ⟨some (S ++ 0 :: t)⟩ version = .error ENOSPC_NEG) ∧
    (version.length ≤ S.length →
      smbios_update_version ⟨some (S ++ 0 :: t)⟩ version =
        .ok (version ++ (S ++ 0 :: t).drop version.length)) :=
  ⟨fun _ => rfl,
   fun hlong => update_version_long_eq S t version hS hv hmax hlong,
   fun hle => update_version_ok_eq S t version hS hv hmax hle⟩

/-- C4 witness: on the stored string `v1.0.0`, patching `v2` succeeds,
patching `v10.0.0` fails with `-ENOSPC`, and patching before any location
is recorded fails with `-ENOENT`. -/
theorem smbios_update_version_spec_witness :
    smbios_update_version ⟨none⟩ (bytes ("v2")) = .error ENOENT_NEG ∧
    smbios_update_version ⟨some (bytes ("v1.0.0") ++ 0 :: [])⟩
      (bytes ("v10.0.0")) = .error ENOSPC_NEG ∧
    smbios_update_version ⟨some (bytes ("v1.0.0") ++ 0 :: [])⟩
      (bytes ("v2")) =
      .ok (bytes ("v2") ++ (bytes ("v1.0.0") ++ 0 :: []).drop
        (bytes ("v2")).length) :=
  ⟨(smbios_update_version_spec (bytes ("v1.0.0")) [] (bytes ("v2"))
      (by decide) (by decide) (by decide)).1 _,
   (smbios_update_version_spec (bytes ("v1.0.0")) [] (bytes ("v10.0.0"))
      (by decide) (by decide) (by decide)).2.1 (by decide),
   (smbios_update_version_spec (bytes ("v1.0.0")) [] (bytes ("v2"))
      (by decide) (by decide) (by decide)).2.2 (by decide)⟩

/-- C10: a successful patch of a strictly shorter string copies exactly
the new string's bytes and no terminator: the buffer keeps its length,
every byte at or past the new length is unchanged (the old string's
remaining tail, its terminator and all following strings), and the stored
string becomes the new string followed by the old string's remaining
suffix — no truncation and no space padding. -/
theorem smbios_update_version_frame (S t version : List Nat)
    (hS : (0 : Nat) ∉ S) (hv : (0 : Nat) ∉ version)
    (hlt : version.length < S.length) (hmax : S.length < SMBIOS_STR_MAX) :
    smbios_update_version ⟨some (S ++ 0 :: t)⟩ version =
      .ok (version ++ (S ++ 0 :: t).drop version.length) ∧
    (version ++ (S ++ 0 :: t).drop version.length).length =
      (S ++ 0 :: t).length ∧
    (version ++ (S ++ 0 :: t).drop version.length).drop version.length =
      (S ++ 0 :: t).drop version.length ∧
    (version ++ (S ++ 0 :: t).drop version.length).takeWhile
        (fun x => x != 0) =
      version ++ S.drop version.length := by
  have hdropS : (S ++ 0 :: t).drop version.length =
      S.drop version.length ++ 0 :: t := by
    rw [List.drop_append_eq_append_drop]
    have h0 : version.length - S.length = 0 := by omega
    rw [h0, List.drop_zero]
  refine ⟨update_version_ok_eq S t version hS hv hmax (le_of_lt hlt), ?_, ?_, ?_⟩
  · simp only [List.length_append, List.length_drop, List.length_cons]
    omega
  · exact List.drop_left version _
  · rw [hdropS, ← List.append_assoc]
    refine takeWhile_run (version ++ S.drop version.length) t ?_
    intro hmem
    rcases List.mem_append.mp hmem with h | h
    · exact hv h
    · exact hS (List.drop_subset _ _ h)

/-- C10 witness: patching `v2` over `v1.0.0` leaves the tail `.0.0`, its
terminator and the following byte 88 untouched, and stores `v2.0.0`. -/
theorem smbios_update_version_frame_witness :
    smbios_update_version ⟨some (bytes ("v1.0.0") ++ 0 :: [88])⟩
      (bytes ("v2")) =
      .ok (bytes ("v2") ++ (bytes ("v1.0.0") ++ 0 :: [88]).drop
        (bytes ("v2")).length) ∧
    (bytes ("v2") ++ (bytes ("v1.0.0") ++ 0 :: [88]).drop
        (bytes ("v2")).length).length =
      (bytes ("v1.0.0") ++ 0 :: [88]).length ∧
    (bytes ("v2") ++ (bytes ("v1.0.0") ++ 0 :: [88]).drop
        (bytes ("v2")).length).drop (bytes ("v2")).length =
      (bytes ("v1.0.0") ++ 0 :: [88]).drop (bytes ("v2")).length ∧
    (bytes ("v2") ++ (bytes ("v1.0.0") ++ 0 :: [88]).drop
        (bytes ("v2")).length).takeWhile (fun x => x != 0) =
      bytes ("v2") ++ (bytes ("v1.0.0")).drop (bytes ("v2")).length :=
  smbios_update_version_frame (bytes ("v1.0.0")) [88] (bytes ("v2"))
    (by decide) (by decide) (by decide) (by decide)

/-- C2 counterexample: with no probe device attached but a valid
configuration subtree holding `wakeup-type = 5` and the property name
given, `smbios_get_val_si` returns 0 and not the subtree's value 5 — the
devicetree tier the claim predicts is never consulted. -/
theorem smbios_get_val_si_dev_absent_cex :
    wakeupNode.u32s ("wakeup-type") = some 5 ∧
    smbios_get_val_si none (some wakeupNode) (some ("wakeup-type"))
      SYSINFO_ID_SMBIOS_SYSTEM_WAKEUP = 0 ∧
    ¬ smbios_get_val_si none (some wakeupNode) (some ("wakeup-type"))
        SYSINFO_ID_SMBIOS_SYSTEM_WAKEUP = 5 := by
  refine ⟨rfl, rfl, ?_⟩
  decide

/-- C2 amended: when no probe-capability device is attached the integer
resolver returns 0 whatever the configuration subtree holds; the
subtree tier is consulted only when a device is attached and its own
lookup fails, in which case the subtree's value is returned. -/
theorem smbios_get_val_si_dev_absent_returns_zero :
    (∀ (node : Option DtNode) (prop : Option String) (sysinfo_id : Nat),
      smbios_get_val_si none node prop sysinfo_id = 0) ∧
    (∀ (d : SysinfoDev) (n : DtNode) (p : String) (sysinfo_id : Nat)
        (v : Int),
      sysinfo_id ≠ 0 → sysinfo_get_int (some d) sysinfo_id = none →
      n.u32s p = some v →
      smbios_get_val_si (some d) (some n) (some p) sysinfo_id = v) := by
  constructor
  · intro node prop sysinfo_id
    unfold smbios_get_val_si
    split <;> rfl
  · intro d n p sysinfo_id v hid hint hdt
    simp [smbios_get_val_si, hid, hint, hdt, CONFIG_OF_CONTROL]

/-- C2 amended witness: the no-device tier yields 0 at the wakeup fact,
and the attached-device devicetree fallback yields the subtree value 5. -/
theorem smbios_get_val_si_dev_absent_returns_zero_witness :
    smbios_get_val_si none (some wakeupNode) (some ("wakeup-type"))
      SYSINFO_ID_SMBIOS_SYSTEM_WAKEUP = 0 ∧
    smbios_get_val_si (some blobDev) (some wakeupNode)
      (some ("wakeup-type")) SYSINFO_ID_SMBIOS_SYSTEM_WAKEUP = 5 :=
  ⟨smbios_get_val_si_dev_absent_returns_zero.1 (some wakeupNode)
      (some ("wakeup-type")) SYSINFO_ID_SMBIOS_SYSTEM_WAKEUP,
   smbios_get_val_si_dev_absent_returns_zero.2 blobDev wakeupNode
      ("wakeup-type") SYSINFO_ID_SMBIOS_SYSTEM_WAKEUP 5
      (by decide) (by decide) (by decide)⟩

/-- The run at the head of a nonzero-headed pool is nonempty. -/
theorem takeWhile_ne_nil_of_head_ne_zero (b : Nat) (tl : List Nat)
    (hb : b ≠ 0) : (b :: tl).takeWhile (fun x => x != 0) ≠ [] := by
  rw [List.takeWhile_cons_of_pos (by simpa using hb)]
  exact List.cons_ne_nil _ _

/-- Fuel does not matter once it covers the pool. -/
theorem scanAddF_fuel_congr : ∀ (f1 f2 : Nat) (pool s : List Nat),
    pool.length ≤ f1 → pool.length ≤ f2 →
    scanAddF f1 pool s = scanAddF f2 pool s := by
  intro f1
  induction f1 with
  | zero =>
    intro f2 pool s h1 _
    have hnil : pool = [] := List.length_eq_zero.mp (Nat.le_zero.mp h1)
    subst hnil
    cases f2 <;> rfl
  | succ f ih =>
    intro f2 pool s h1 h2
    cases pool with
    | nil => cases f2 <;> rfl
    | cons b tl =>
      obtain ⟨g, rfl⟩ : ∃ g, f2 = g + 1 := ⟨f2 - 1, by simp at h2; omega⟩
      by_cases hb : b = 0
      · simp [scanAddF, hb]
      · simp only [scanAddF, if_neg hb]
        by_cases hr : (b :: tl).takeWhile (fun x => x != 0) = s
        · simp only [if_pos hr]
        · simp only [if_neg hr]
          have hrne := takeWhile_ne_nil_of_head_ne_zero b tl hb
          have hrpos : 0 < ((b :: tl).takeWhile (fun x => x != 0)).length :=
            List.length_pos.mpr hrne
          have hd : ((b :: tl).drop
              (((b :: tl).takeWhile (fun x => x != 0)).length + 1)).length ≤ f := by
            simp only [List.length_drop, List.length_cons]
            simp only [List.length_cons] at h1
            omega
          have hd2 : ((b :: tl).drop
              (((b :: tl).takeWhile (fun x => x != 0)).length + 1)).length ≤ g := by
            simp only [List.length_drop, List.length_cons]
            simp only [List.length_cons] at h2
            omega
          rw [ih g _ s hd hd2]

/-- Re-adding the string a fresh append produced finds it at number 1. -/
theorem scanAdd_append_self (s : List Nat) (hs : (0 : Nat) ∉ s) :
    scanAdd (s ++ [0]) s = ⟨s ++ [0], 1, s⟩ := by
  cases s with
  | nil => rfl
  | cons c cs =>
    have hc : c ≠ 0 := fun e => hs (by simp [e])
    have hr : (c :: (cs ++ [0])).takeWhile (fun x => x != 0) = c :: cs := by
      have h2 := takeWhile_run (c :: cs) ([] : List Nat) hs
      simpa using h2
    simp only [scanAdd, List.cons_append, scanAddF, if_neg hc]
    simp only [List.append_eq]
    rw [hr, if_pos rfl]

/-- Scanning past a leading run that does not match: the run is kept, the
number shifts by one, and the scan continues after the terminator. -/
theorem scanAdd_skip (r X s : List Nat) (hr0 : (0 : Nat) ∉ r)
    (hne : r ≠ []) (hrs : r ≠ s) :
    scanAdd (r ++ 0 :: X) s =
      ⟨r ++ 0 :: (scanAdd X s).pool, (scanAdd X s).num + 1,
       (scanAdd X s).last⟩ := by
  obtain ⟨c, cs, rfl⟩ : ∃ c cs, r = c :: cs := by
    cases r with
    | nil => exact absurd rfl hne
    | cons c cs => exact ⟨c, cs, rfl⟩
  have hc : c ≠ 0 := fun e => hr0 (by simp [e])
  have hlen : ((c :: cs) ++ 0 :: X).length = (cs.length + 1 + X.length) + 1 := by
    simp only [List.length_append, List.length_cons]
    omega
  have hr : (c :: (cs ++ 0 :: X)).takeWhile (fun x => x != 0) = c :: cs :=
    takeWhile_run (c :: cs) X hr0
  have hdrop : (c :: (cs ++ 0 :: X)).drop (cs.length + 1 + 1) = X :=
    drop_run (c :: cs) X
  simp only [scanAdd]
  rw [scanAddF_fuel_congr ((c :: cs ++ 0 :: X)).length
    ((cs.length + 1 + X.length) + 1) _ s (le_refl _) (le_of_eq hlen)]
  simp only [List.cons_append, scanAddF, if_neg hc]
  simp only [List.append_eq]
  rw [hr, if_neg hrs]
  simp only [List.length_cons]
  rw [hdrop]
  rw [scanAddF_fuel_congr (cs.length + 1 + X.length) X.length X s
    (by omega) (le_refl _)]
  rfl

/-- Adding the same string again right after an add finds it at the same
number and leaves the pool bytes unchanged. -/
theorem scanAddF_idem : ∀ (fuel : Nat) (pool s : List Nat),
    pool.length ≤ fuel → (0 : Nat) ∉ s →
    scanAdd (scanAddF fuel pool s).pool s =
      ⟨(scanAddF fuel pool s).pool, (scanAddF fuel pool s).num, s⟩ := by
  intro fuel
  induction fuel with
  | zero =>
    intro pool s h hs
    have hnil : pool = [] := List.length_eq_zero.mp (Nat.le_zero.mp h)
    subst hnil
    simpa [scanAddF] using scanAdd_append_self s hs
  | succ f ih =>
    intro pool s h hs
    cases pool with
    | nil => simpa [scanAddF] using scanAdd_append_self s hs
    | cons b tl =>
      by_cases hb : b = 0
      · subst hb
        simp only [scanAddF, if_pos rfl]
        exact scanAdd_append_self s hs
      · by_cases hrs : (b :: tl).takeWhile (fun x => x != 0) = s
        · simp only [scanAddF, if_neg hb, if_pos hrs]
          have hb2 : scanAdd (b :: tl) s = ⟨b :: tl, 1, s⟩ := by
            simp [scanAdd, scanAddF, if_neg hb, hrs]
          rw [hb2]
        · simp only [scanAddF, if_neg hb, if_neg hrs]
          have hrne := takeWhile_ne_nil_of_head_ne_zero b tl hb
          have hr0 := zero_not_mem_takeWhile (b :: tl)
          have hd : ((b :: tl).drop
              (((b :: tl).takeWhile (fun x => x != 0)).length + 1)).length ≤ f := by
            simp only [List.length_drop, List.length_cons]
            simp only [List.length_cons] at h
            omega
          rw [scanAdd_skip _ _ s hr0 hrne hrs]
          rw [ih _ s hd hs]

/-- Adding a second, different string to a pool holding exactly one
nonempty string numbers it 2. -/
theorem scanAdd_second_distinct (s1 s2 : List Nat) (h1 : (0 : Nat) ∉ s1)
    (hne1 : s1 ≠ []) (hd : s1 ≠ s2) :
    scanAdd (s1 ++ [0]) s2 = ⟨s1 ++ 0 :: (s2 ++ [0]), 2, s2⟩ := by
  have h2 := scanAdd_skip s1 [] s2 h1 hne1 hd
  simpa using h2

/-- Well-formed pools survive a `drop`. -/
theorem poolWf_drop (p : List Nat) (n : Nat) (h : PoolWf p) :
    PoolWf (p.drop n) := by
  by_cases hd : p.drop n = []
  · exact Or.inl hd
  · rcases h with h | h
    · subst h
      simp at hd
    · right
      obtain ⟨x, hx⟩ : ∃ x, (p.drop n).getLast? = some x := by
        cases hgl : (p.drop n).getLast? with
        | none => exact absurd (List.getLast?_eq_none_iff.mp hgl) hd
        | some x => exact ⟨x, rfl⟩
      have hp : p.getLast? = (p.drop n).getLast? := by
        conv_lhs => rw [← List.take_append_drop n p]
        rw [List.getLast?_append, hx]
        rfl
      rw [← hp, h]

/-- After any add on a well-formed pool, the pool is nonempty and still
ends with the last stored string's terminating 0 byte. -/
theorem scanAddF_pool_spec : ∀ (fuel : Nat) (pool s : List Nat),
    pool.length ≤ fuel → PoolWf pool →
    (scanAddF fuel pool s).pool ≠ [] ∧
    (scanAddF fuel pool s).pool.getLast? = some 0 := by
  intro fuel
  induction fuel with
  | zero =>
    intro pool s h _
    have hnil : pool = [] := List.length_eq_zero.mp (Nat.le_zero.mp h)
    subst hnil
    exact ⟨by simp [scanAddF], by simp [scanAddF, List.getLast?_concat]⟩
  | succ f ih =>
    intro pool s h hwf
    cases pool with
    | nil => exact ⟨by simp [scanAddF], by simp [scanAddF, List.getLast?_concat]⟩
    | cons b tl =>
      by_cases hb : b = 0
      · subst hb
        refine ⟨by simp [scanAddF], ?_⟩
        simp only [scanAddF, if_pos rfl]
        exact List.getLast?_concat s
      · by_cases hrs : (b :: tl).takeWhile (fun x => x != 0) = s
        · simp only [scanAddF, if_neg hb, if_pos hrs]
          refine ⟨List.cons_ne_nil _ _, ?_⟩
          rcases hwf with hwf | hwf
          · exact absurd hwf (List.cons_ne_nil _ _)
          · exact hwf
        · simp only [scanAddF, if_neg hb, if_neg hrs]
          have hd : ((b :: tl).drop
              (((b :: tl).takeWhile (fun x => x != 0)).length + 1)).length ≤ f := by
            simp only [List.length_drop, List.length_cons]
            simp only [List.length_cons] at h
            omega
          have hwf2 := poolWf_drop (b :: tl)
            (((b :: tl).takeWhile (fun x => x != 0)).length + 1) hwf
          obtain ⟨hne2, hlast2⟩ := ih _ s hd hwf2
          constructor
          · simp
          · rw [show ((b :: tl).takeWhile (fun x => x != 0)) ++
                0 :: (scanAddF f ((b :: tl).drop
                  (((b :: tl).takeWhile (fun x => x != 0)).length + 1)) s).pool
                = ((b :: tl).takeWhile (fun x => x != 0) ++ [0]) ++
                  (scanAddF f ((b :: tl).drop
                    (((b :: tl).takeWhile (fun x => x != 0)).length + 1)) s).pool
              from by simp]
            rw [List.getLast?_append, hlast2]
            rfl

/-- C6 counterexample: the empty string is non-null; adding it to a fresh
pool returns 1, and adding a different string afterwards returns 1 again,
not 2 — a stored empty string is indistinguishable from the pool end, so
the numbers of two distinct strings are not always consecutive. -/
theorem smbios_add_string_distinct_empty_cex :
    (smbios_add_string freshStrCtx (some [])).num = 1 ∧
    (smbios_add_string (smbios_add_string freshStrCtx (some [])).ctx
      (some (bytes ("A")))).num = 1 ∧
    ¬ (smbios_add_string (smbios_add_string freshStrCtx (some [])).ctx
      (some (bytes ("A")))).num = 2 := by
  decide

/-- C6 amended: re-adding the same non-null string right after it was
added returns the same reference number and leaves the pool bytes
unchanged, on any pool state; and adding two distinct strings, the first
of them non-empty, to a fresh pool returns the consecutive numbers
1 and 2. -/
theorem smbios_add_string_dedup_numbering :
    (∀ (c : SmbiosStrCtx) (s : List Nat), (0 : Nat) ∉ s →
      (smbios_add_string (smbios_add_string c (some s)).ctx (some s)).num =
        (smbios_add_string c (some s)).num ∧
      (smbios_add_string (smbios_add_string c (some s)).ctx
          (some s)).ctx.pool =
        (smbios_add_string c (some s)).ctx.pool) ∧
    (∀ s1 s2 : List Nat, (0 : Nat) ∉ s1 → s1 ≠ [] → s1 ≠ s2 →
      (smbios_add_string freshStrCtx (some s1)).num = 1 ∧
      (smbios_add_string (smbios_add_string freshStrCtx (some s1)).ctx
        (some s2)).num = 2) := by
  constructor
  · intro c s hs
    have h : scanAdd (scanAdd c.pool s).pool s =
        ⟨(scanAdd c.pool s).pool, (scanAdd c.pool s).num, s⟩ :=
      scanAddF_idem c.pool.length c.pool s (le_refl _) hs
    constructor
    · show (scanAdd (scanAdd c.pool s).pool s).num = (scanAdd c.pool s).num
      rw [h]
    · show (scanAdd (scanAdd c.pool s).pool s).pool = (scanAdd c.pool s).pool
      rw [h]
  · intro s1 s2 h1 hne hd
    constructor
    · rfl
    · show (scanAdd (scanAdd [] s1).pool s2).num = 2
      have h0 : scanAdd ([] : List Nat) s1 = ⟨s1 ++ [0], 1, s1⟩ := rfl
      rw [h0, scanAdd_second_distinct s1 s2 h1 hne hd]

/-- C6 amended witness: adding `A` twice to a fresh pool returns 1 both
times without growing the pool; adding `A` then `B` returns 1 then 2. -/
theorem smbios_add_string_dedup_numbering_witness :
    ((smbios_add_string (smbios_add_string freshStrCtx
        (some (bytes ("A")))).ctx (some (bytes ("A")))).num =
      (smbios_add_string freshStrCtx (some (bytes ("A")))).num ∧
     (smbios_add_string (smbios_add_string freshStrCtx
        (some (bytes ("A")))).ctx (some (bytes ("A")))).ctx.pool =
      (smbios_add_string freshStrCtx (some (bytes ("A")))).ctx.pool) ∧
    ((smbios_add_string freshStrCtx (some (bytes ("A")))).num = 1 ∧
     (smbios_add_string (smbios_add_string freshStrCtx
        (some (bytes ("A")))).ctx (some (bytes ("B")))).num = 2) :=
  ⟨smbios_add_string_dedup_numbering.1 freshStrCtx (bytes ("A")) (by decide),
   smbios_add_string_dedup_numbering.2 (bytes ("A")) (bytes ("B"))
     (by decide) (by decide) (by decide)⟩

/-- C7: an untouched string pool has computed string-area length 2 and
serializes to exactly two zero bytes; after a string is added to a
well-formed pool the pool is nonempty, ends with the last string's own
terminating 0 byte, and the serialized area is the pool followed by
exactly one extra trailing 0 byte. -/
theorem string_pool_area_spec :
    (smbios_string_table_len freshStrCtx = 2 ∧
     string_area_bytes freshStrCtx = [0, 0]) ∧
    (∀ (c : SmbiosStrCtx) (s : List Nat), PoolWf c.pool →
      (smbios_add_string c (some s)).ctx.pool ≠ [] ∧
      ((smbios_add_string c (some s)).ctx.pool).getLast? = some 0 ∧
      smbios_string_table_len (smbios_add_string c (some s)).ctx =
        (smbios_add_string c (some s)).ctx.pool.length + 1 ∧
      string_area_bytes (smbios_add_string c (some s)).ctx =
        (smbios_add_string c (some s)).ctx.pool ++ [0]) := by
  refine ⟨⟨rfl, rfl⟩, ?_⟩
  intro c s hwf
  obtain ⟨hne, hlast⟩ :=
    scanAddF_pool_spec c.pool.length c.pool s (le_refl _) hwf
  have hne2 : (smbios_add_string c (some s)).ctx.pool ≠ [] := hne
  have hlast2 : ((smbios_add_string c (some s)).ctx.pool).getLast? =
      some 0 := hlast
  have hlen : smbios_string_table_len (smbios_add_string c (some s)).ctx =
      (smbios_add_string c (some s)).ctx.pool.length + 1 := by
    simp only [smbios_string_table_len, if_neg hne2]
  refine ⟨hne2, hlast2, hlen, ?_⟩
  simp only [string_area_bytes, hlen]
  have h1 : (smbios_add_string c (some s)).ctx.pool.length + 1 -
      (smbios_add_string c (some s)).ctx.pool.length = 1 := by omega
  rw [h1]
  rfl

/-- C7 witness: adding `A` to the fresh pool yields a nonempty pool
ending in 0 whose serialized area appends exactly one extra 0 byte. -/
theorem string_pool_area_spec_witness :
    (smbios_add_string freshStrCtx (some (bytes ("A")))).ctx.pool ≠ [] ∧
    ((smbios_add_string freshStrCtx
      (some (bytes ("A")))).ctx.pool).getLast? = some 0 ∧
    smbios_string_table_len (smbios_add_string freshStrCtx
      (some (bytes ("A")))).ctx =
      (smbios_add_string freshStrCtx (some (bytes ("A")))).ctx.pool.length
        + 1 ∧
    string_area_bytes (smbios_add_string freshStrCtx
      (some (bytes ("A")))).ctx =
      (smbios_add_string freshStrCtx (some (bytes ("A")))).ctx.pool ++ [0] :=
  string_pool_area_spec.2 freshStrCtx (bytes ("A")) (Or.inl rfl)

/-- C9: the processor writer's three cache-handle fields default to the
"no cache" sentinel whenever the cache-handle blob fact is unreadable or
not exactly one 16-bit slot per supported cache level, or the
corresponding slot holds zero; otherwise each field is filled from its
16-bit slot of the blob — the blob the cache writer previously filled,
since the cache writer stores its own handle into the slot at its level
when the blob is readable and well-sized, and leaves the blob alone
otherwise. -/
theorem smbios_type4_cache_handle_fields (env : WEnv) (handle : Nat)
    (ctx : WCtx) (blob : Option (List Nat)) :
    (sysinfo_get_data_cache env.dev blob = none →
      (smbios_write_type4 env handle ctx blob).l1_cache_handle =
        SMBIOS_CACHE_HANDLE_NONE ∧
      (smbios_write_type4 env handle ctx blob).l2_cache_handle =
        SMBIOS_CACHE_HANDLE_NONE ∧
      (smbios_write_type4 env handle ctx blob).l3_cache_handle =
        SMBIOS_CACHE_HANDLE_NONE) ∧
    (∀ b : List Nat, sysinfo_get_data_cache env.dev blob = some b →
      b.length ≠ SYSINFO_CACHE_LVL_MAX * 2 →
      (smbios_write_type4 env handle ctx blob).l1_cache_handle =
        SMBIOS_CACHE_HANDLE_NONE ∧
      (smbios_write_type4 env handle ctx blob).l2_cache_handle =
        SMBIOS_CACHE_HANDLE_NONE ∧
      (smbios_write_type4 env handle ctx blob).l3_cache_handle =
        SMBIOS_CACHE_HANDLE_NONE) ∧
    (∀ b : List Nat, sysinfo_get_data_cache env.dev blob = some b →
      b.length = SYSINFO_CACHE_LVL_MAX * 2 →
      (smbios_write_type4 env handle ctx blob).l1_cache_handle =
        (if readU16le b 0 ≠ 0 then readU16le b 0
         else SMBIOS_CACHE_HANDLE_NONE) ∧
      (smbios_write_type4 env handle ctx blob).l2_cache_handle =
        (if readU16le b 2 ≠ 0 then readU16le b 2
         else SMBIOS_CACHE_HANDLE_NONE) ∧
      (smbios_write_type4 env handle ctx blob).l3_cache_handle =
        (if readU16le b 4 ≠ 0 then readU16le b 4
         else SMBIOS_CACHE_HANDLE_NONE)) ∧
    (∀ (b : List Nat) (level : Nat),
      sysinfo_get_data_cache env.dev blob = some b →
      b.length = SYSINFO_CACHE_LVL_MAX * 2 →
      (smbios_write_type7_1level env handle ctx blob level).blob =
        some (writeU16le b (2 * level) handle)) ∧
    (sysinfo_get_data_cache env.dev blob = none →
      ∀ level : Nat,
        (smbios_write_type7_1level env handle ctx blob level).blob =
          blob) := by
  refine ⟨?_, ?_, ?_, ?_, ?_⟩
  · intro h
    refine ⟨?_, ?_, ?_⟩ <;> simp only [smbios_write_type4, h]
  · intro b hb hlen
    refine ⟨?_, ?_, ?_⟩ <;> simp only [smbios_write_type4, hb, if_neg hlen]
  · intro b hb hlen
    refine ⟨?_, ?_, ?_⟩ <;> simp only [smbios_write_type4, hb, if_pos hlen]
  · intro b level hb hlen
    simp only [smbios_write_type7_1level, hb, if_pos hlen]
  · intro h level
    simp only [smbios_write_type7_1level, h]

/-- C9 witness: with a readable six-byte blob holding slots 5, 0, 7 the
processor writer stores 5, the sentinel, and 7; with no blob all three
fields are the sentinel; and the cache writer records its handle 9 into
slot 1. -/
theorem smbios_type4_cache_handle_fields_witness :
    ((smbios_write_type4 blobEnv 5 ⟨none, none⟩
        (some [5, 0, 0, 0, 7, 0])).l1_cache_handle =
      (if readU16le [5, 0, 0, 0, 7, 0] 0 ≠ 0 then
        readU16le [5, 0, 0, 0, 7, 0] 0 else SMBIOS_CACHE_HANDLE_NONE) ∧
     (smbios_write_type4 blobEnv 5 ⟨none, none⟩
        (some [5, 0, 0, 0, 7, 0])).l2_cache_handle =
      (if readU16le [5, 0, 0, 0, 7, 0] 2 ≠ 0 then
        readU16le [5, 0, 0, 0, 7, 0] 2 else SMBIOS_CACHE_HANDLE_NONE) ∧
     (smbios_write_type4 blobEnv 5 ⟨none, none⟩
        (some [5, 0, 0, 0, 7, 0])).l3_cache_handle =
      (if readU16le [5, 0, 0, 0, 7, 0] 4 ≠ 0 then
        readU16le [5, 0, 0, 0, 7, 0] 4 else SMBIOS_CACHE_HANDLE_NONE)) ∧
    ((smbios_write_type4 cacheLvl1Env 5 ⟨none, none⟩ none).l1_cache_handle =
      SMBIOS_CACHE_HANDLE_NONE ∧
     (smbios_write_type4 cacheLvl1Env 5 ⟨none, none⟩ none).l2_cache_handle =
      SMBIOS_CACHE_HANDLE_NONE ∧
     (smbios_write_type4 cacheLvl1Env 5 ⟨none, none⟩ none).l3_cache_handle =
      SMBIOS_CACHE_HANDLE_NONE) ∧
    (smbios_write_type7_1level blobEnv 9 ⟨none, none⟩
        (some [5, 0, 0, 0, 7, 0]) 1).blob =
      some (writeU16le [5, 0, 0, 0, 7, 0] (2 * 1) 9) :=
  ⟨(smbios_type4_cache_handle_fields blobEnv 5 ⟨none, none⟩
      (some [5, 0, 0, 0, 7, 0])).2.2.1 [5, 0, 0, 0, 7, 0]
      (by decide) (by decide),
   (smbios_type4_cache_handle_fields cacheLvl1Env 5 ⟨none, none⟩ none).1
      (by decide),
   (smbios_type4_cache_handle_fields blobEnv 9 ⟨none, none⟩
      (some [5, 0, 0, 0, 7, 0])).2.2.2.1 [5, 0, 0, 0, 7, 0] 1
      (by decide) (by decide)⟩

/-- The descriptor's byte sum splits off the checksum byte. -/
theorem smbios3_entry_bytes_sum (c maxSize tableAddr : Nat) :
    (smbios3_entry_bytes c maxSize tableAddr).sum =
      c % 256 + (smbios3_entry_bytes 0 maxSize tableAddr).sum := by
  simp only [smbios3_entry_bytes, List.sum_append, List.sum_cons, toU8n]
  omega

/-- A descriptor built with the balancing checksum sums to 0 mod 256. -/
theorem entry_sum_zero (maxSize tableAddr : Nat) :
    (smbios3_entry_bytes
      (table_compute_checksum (smbios3_entry_bytes 0 maxSize tableAddr))
      maxSize tableAddr).sum % 256 = 0 := by
  rw [smbios3_entry_bytes_sum]
  unfold table_compute_checksum
  omega

/-- Every descriptor byte is an 8-bit value. -/
theorem entry_bytes_bounded (c maxSize tableAddr : Nat) :
    (smbios3_entry_bytes c maxSize tableAddr).all
      (fun b => decide (b < 256)) = true := by
  rw [List.all_eq_true]
  intro x hx
  simp only [smbios3_entry_bytes, u32le, u64le, toU8n,
    sizeof_smbios3_entry, SMBIOS_MAJOR_VER, SMBIOS_MINOR_VER,
    List.mem_append, List.mem_cons, List.not_mem_nil, or_false] at hx
  simp only [decide_eq_true_eq]
  omega

/-- C8: the entry-point descriptor's bytes, all 8-bit values, sum to zero
modulo 256 — the checksum byte balances the record. -/
theorem smbios3_entry_checksum_zero_sum (env : WEnv) (addr : Nat) :
    ((write_smbios_table env addr).entryBytes.sum) % 256 = 0 ∧
    (write_smbios_table env addr).entryBytes.all
      (fun b => decide (b < 256)) = true := by
  constructor
  · exact entry_sum_zero _ _
  · exact entry_bytes_bounded _ _ _

set_option maxHeartbeats 1000000 in
theorem write_smbios_table_board_chassis (env : WEnv) (addr : Nat) :
    ∃ b c : Emitted,
      (write_smbios_table env addr).structs[2]? = some b ∧
      (write_smbios_table env addr).structs[3]? = some c ∧
      b.typ = SMBIOS_BOARD_INFORMATION ∧
      c.typ = SMBIOS_SYSTEM_ENCLOSURE ∧
      c.handle = b.handle + 1 ∧
      b.chassisHandle = some c.handle := by
  simp only [write_smbios_table, smbios_write_funcs, List.foldl_cons,
    List.foldl_nil, stepWriter, wrap_type0, wrap_type1, wrap_type2,
    wrap_type3, wrap_type7, wrap_type4, wrap_type32, wrap_type127,
    List.nil_append, List.singleton_append, List.append_assoc,
    List.cons_append, List.getElem?_cons_succ, List.getElem?_cons_zero]
  exact ⟨_, _, rfl, rfl, rfl, rfl, rfl, rfl⟩

/-- The type-0 writer always writes a positive number of bytes. -/
theorem smbios_write_type0_len_pos (env : WEnv) (h : Nat) (ctx : WCtx) :
    0 < (smbios_write_type0 env h ctx).len := by
  simp only [smbios_write_type0, fill_smbios_header, sizeof_type0,
    SMBIOS_STRUCT_EOS_BYTES]
  omega

/-- The type-1 writer always writes a positive number of bytes. -/
theorem smbios_write_type1_len_pos (env : WEnv) (h : Nat) (ctx : WCtx) :
    0 < (smbios_write_type1 env h ctx).len := by
  simp only [smbios_write_type1, fill_smbios_header, sizeof_type1,
    SMBIOS_STRUCT_EOS_BYTES]
  omega

/-- The type-2 writer always writes a positive number of bytes. -/
theorem smbios_write_type2_len_pos (env : WEnv) (h : Nat) (ctx : WCtx) :
    0 < (smbios_write_type2 env h ctx).len := by
  simp only [smbios_write_type2, fill_smbios_header, sizeof_type2,
    SMBIOS_STRUCT_EOS_BYTES]
  omega

/-- The type-3 writer always writes a positive number of bytes. -/
theorem smbios_write_type3_len_pos (env : WEnv) (h : Nat) (ctx : WCtx) :
    0 < (smbios_write_type3 env h ctx).len := by
  simp only [smbios_write_type3, fill_smbios_header, sizeof_type3,
    SMBIOS_STRUCT_EOS_BYTES]
  omega

/-- The type-4 writer always writes a positive number of bytes. -/
theorem smbios_write_type4_len_pos (env : WEnv) (h : Nat) (ctx : WCtx)
    (blob : Option (List Nat)) :
    0 < (smbios_write_type4 env h ctx blob).len := by
  simp only [smbios_write_type4, fill_smbios_header, sizeof_type4,
    SMBIOS_STRUCT_EOS_BYTES]
  omega

/-- With a resolved cache level count at or beyond the supported maximum,
the cache-info group is skipped whole: no structures, zero bytes, the
blob untouched. -/
theorem smbios_write_type7_skip (env : WEnv) (handle : Nat) (ctx : WCtx)
    (blob : Option (List Nat))
    (h : smbios_get_val_si env.dev none none SYSINFO_ID_SMBIOS_CACHE_LEVEL =
      (SYSINFO_CACHE_LVL_MAX : Int) + 1) :
    smbios_write_type7 env handle ctx blob = ⟨0, [], blob⟩ := by
  have hnode : smbios_get_val_si env.dev ctx.node none
      SYSINFO_ID_SMBIOS_CACHE_LEVEL =
      smbios_get_val_si env.dev none none SYSINFO_ID_SMBIOS_CACHE_LEVEL := rfl
  unfold smbios_write_type7
  rw [hnode, h, if_pos (by omega)]

set_option maxHeartbeats 1000000 in
/-- C5: when the resolved cache-level-count fact is the supported maximum
plus one, the cache-info writer group emits zero structures and returns
length 0, and the overall build continues: the emitted type sequence is
exactly firmware, system, board, chassis, processor, boot and end marker,
each with a positive length. -/
theorem smbios_write_type7_level_overflow_spec (env : WEnv) (addr : Nat)
    (h : smbios_get_val_si env.dev none none SYSINFO_ID_SMBIOS_CACHE_LEVEL =
      (SYSINFO_CACHE_LVL_MAX : Int) + 1) :
    (∀ (handle : Nat) (ctx : WCtx) (blob : Option (List Nat)),
      (smbios_write_type7 env handle ctx blob).outs = [] ∧
      (smbios_write_type7 env handle ctx blob).len = 0) ∧
    (write_smbios_table env addr).structs.map (fun e => e.typ) =
      [SMBIOS_BIOS_INFORMATION, SMBIOS_SYSTEM_INFORMATION,
       SMBIOS_BOARD_INFORMATION, SMBIOS_SYSTEM_ENCLOSURE,
       SMBIOS_PROCESSOR_INFORMATION, SMBIOS_SYSTEM_BOOT_INFORMATION,
       SMBIOS_END_OF_TABLE] ∧
    (∀ e ∈ (write_smbios_table env addr).structs, 0 < e.len) := by
  have hskip : ∀ (handle : Nat) (ctx : WCtx) (blob : Option (List Nat)),
      smbios_write_type7 env handle ctx blob = ⟨0, [], blob⟩ :=
    fun handle ctx blob => smbios_write_type7_skip env handle ctx blob h
  refine ⟨fun handle ctx blob => by rw [hskip]; exact ⟨rfl, rfl⟩, ?_, ?_⟩
  · simp only [write_smbios_table, smbios_write_funcs, List.foldl_cons,
      List.foldl_nil, stepWriter, wrap_type0, wrap_type1, wrap_type2,
      wrap_type3, wrap_type7, wrap_type4, wrap_type32, wrap_type127,
      hskip, List.map_nil, List.nil_append, List.singleton_append,
      List.append_assoc, List.cons_append, List.append_nil, List.map_cons]
    rfl
  · intro e he
    simp only [write_smbios_table, smbios_write_funcs, List.foldl_cons,
      List.foldl_nil, stepWriter, wrap_type0, wrap_type1, wrap_type2,
      wrap_type3, wrap_type7, wrap_type4, wrap_type32, wrap_type127,
      hskip, List.map_nil, List.nil_append, List.singleton_append,
      List.append_assoc, List.cons_append, List.append_nil,
      List.mem_cons, List.not_mem_nil, or_false] at he
    rcases he with rfl | rfl | rfl | rfl | rfl | rfl | rfl <;> dsimp only
    · exact smbios_write_type0_len_pos _ _ _
    · exact smbios_write_type1_len_pos _ _ _
    · exact smbios_write_type2_len_pos _ _ _
    · exact smbios_write_type3_len_pos _ _ _
    · exact smbios_write_type4_len_pos _ _ _ _
    · simp [smbios_write_type32, sizeof_type32]
    · simp [smbios_write_type127, sizeof_type127]

/-- C5 witness: with the level-count fact at the maximum plus one, the
cache group of the concrete build emits nothing while the other seven
structures appear. -/
theorem smbios_write_type7_level_overflow_spec_witness :
    ((smbios_write_type7 cacheLvl4Env 4 ⟨none, none⟩ none).outs = [] ∧
     (smbios_write_type7 cacheLvl4Env 4 ⟨none, none⟩ none).len = 0) ∧
    (write_smbios_table cacheLvl4Env 0).structs.map (fun e => e.typ) =
      [SMBIOS_BIOS_INFORMATION, SMBIOS_SYSTEM_INFORMATION,
       SMBIOS_BOARD_INFORMATION, SMBIOS_SYSTEM_ENCLOSURE,
       SMBIOS_PROCESSOR_INFORMATION, SMBIOS_SYSTEM_BOOT_INFORMATION,
       SMBIOS_END_OF_TABLE] :=
  ⟨(smbios_write_type7_level_overflow_spec cacheLvl4Env 0 (by decide)).1
      4 ⟨none, none⟩ none,
   (smbios_write_type7_level_overflow_spec cacheLvl4Env 0 (by decide)).2.1⟩

/-- C1 failing input: a build whose cache level-count fact is 1 emits two
cache-info structures with handles 4 and 5, yet the Assembler advances its
handle counter once per writer method, so the processor structure also
receives handle 5 — the emitted handles are not unique, contradicting the
claim (and the code's own description of a handle as "a unique 16-bit
number"), though handles do start at 0. -/
theorem write_smbios_table_duplicate_handles :
    (write_smbios_table cacheLvl1Env 0).structs.map
        (fun e => (e.typ, e.handle)) =
      [(0, 0), (1, 1), (2, 2), (3, 3), (7, 4), (7, 5), (4, 5), (32, 6),
       (127, 7)] ∧
    ¬ ((write_smbios_table cacheLvl1Env 0).structs.map
        (fun e => e.handle)).Nodup := by
  decide
